import Mathlib

/-!
# Verification of the Clippy-ai lyrics-translation core

This file gives a shallow embedding of the repository's rate-limiting and
multi-provider fallback core and proves the specification's claims about it.

Embedding conventions:
* JavaScript epoch-millisecond timestamps are `Int`; each operation takes the
  current clock value `now` as an explicit argument (the source reads
  `Date.now()`).
* The two `Map`s inside `RateLimiter` are association lists over `String`
  keys (`mapGet` / `mapSet` / `mapDelete` model `Map.get` / `Map.set` /
  `Map.delete`).
* Network adapters are abstracted as oracles: one adapter invocation is a
  value of `Outcome α` (`throws msg` models a rejected promise, `ok none`
  models a clean "not found", `ok (some r)` a populated response).
* The module-level singleton services (`freeLyricsService`, …) each hold a
  mutable `errors` array; those arrays together with the singleton
  `rateLimiter` form the process-wide state `ProcessState` threaded through
  every function.
* Numeric confidence scores are `Rat`.
-/

set_option autoImplicit false

namespace Clippy

/-- From `src/types.ts`: the `rateLimit` sub-record of `ServiceConfig`. -/
structure RateLimitSpec where
  requests : Nat
  window : Int
deriving DecidableEq, Repr

/-- From `src/types.ts`: `ServiceConfig`. -/
structure ServiceConfig where
  apiKey : Option String := none
  baseUrl : String := ""
  rateLimit : RateLimitSpec
  retryAttempts : Nat := 0
  timeout : Int := 0
deriving DecidableEq, Repr

/-- From `src/types.ts`: `RateLimitInfo`. -/
structure RateLimitInfo where
  remaining : Int
  resetTime : Int
  lastRequest : Int
deriving DecidableEq, Repr

/-- From `src/types.ts`: `ServiceError`. -/
structure ServiceError where
  service : String
  error : String
  code : Option String := none
  retryAfter : Option Int := none
deriving DecidableEq, Repr

/-- From `src/types.ts`: `AudioRecognitionResult` (optional fields are `Option`). -/
structure AudioRecognitionResult where
  title : Option String := none
  artist : Option String := none
  album : Option String := none
  duration : Option Int := none
  confidence : Option Rat := none
  source : String
deriving DecidableEq, Repr

/-- From `src/types.ts`: `LyricsResult`. -/
structure LyricsResult where
  lyrics : String
  title : String
  artist : String
  source : String
deriving DecidableEq, Repr

/-- From `src/types.ts`: `TranslationResult`. -/
structure TranslationResult where
  translatedText : String
  sourceLanguage : String
  targetLanguage : String
  source : String
deriving DecidableEq, Repr

/-! ## Association-list model of the JavaScript `Map` -/

/-- Models `Map.get`: first binding of the key, if any. -/
def mapGet {α : Type} (m : List (String × α)) (k : String) : Option α :=
  match m with
  | [] => none
  | (k', v) :: rest => if k' = k then some v else mapGet rest k

/-- Models `Map.set`: replace the binding in place, or append a fresh one. -/
def mapSet {α : Type} (m : List (String × α)) (k : String) (v : α) :
    List (String × α) :=
  match m with
  | [] => [(k, v)]
  | (k', v') :: rest =>
    if k' = k then (k, v) :: rest else (k', v') :: mapSet rest k v

/-- Models `Map.delete`: drop the binding of the key. -/
def mapDelete {α : Type} (m : List (String × α)) (k : String) :
    List (String × α) :=
  match m with
  | [] => []
  | (k', v') :: rest =>
    if k' = k then rest else (k', v') :: mapDelete rest k

@[simp] theorem mapGet_mapSet_self {α : Type} (m : List (String × α)) (k : String) (v : α) :
    mapGet (mapSet m k v) k = some v := by
  induction m with
  | nil => simp [mapGet, mapSet]
  | cons hd tl ih =>
    obtain ⟨k', v'⟩ := hd
    by_cases h : k' = k <;> simp [mapGet, mapSet, h, ih]

theorem mapGet_mapSet_ne {α : Type} (m : List (String × α)) (k k' : String) (v : α)
    (h : k' ≠ k) : mapGet (mapSet m k v) k' = mapGet m k' := by
  have hne : ¬ k = k' := fun hh => h hh.symm
  induction m with
  | nil => simp [mapGet, mapSet, hne]
  | cons hd tl ih =>
    obtain ⟨k0, v0⟩ := hd
    by_cases h0 : k0 = k
    · subst h0
      simp [mapGet, mapSet, hne]
    · simp [mapGet, mapSet, h0, ih]

@[simp] theorem mapSet_mapSet {α : Type} (m : List (String × α)) (k : String) (v w : α) :
    mapSet (mapSet m k v) k w = mapSet m k w := by
  induction m with
  | nil => simp [mapSet]
  | cons hd tl ih =>
    obtain ⟨k', v'⟩ := hd
    by_cases h : k' = k <;> simp [mapSet, h, ih]

/-- Models `Math.min(...list)`.  The JavaScript expression on an empty spread is
`Infinity`; the source only evaluates it on a non-empty list whenever
`maxRequests > 0`, and every theorem below assumes that, so the `[]` value
here is immaterial. -/
def minList : List Int → Int
  | [] => 0
  | t :: ts => ts.foldl min t

theorem foldl_min_mem (ts : List Int) (t : Int) : ts.foldl min t ∈ t :: ts := by
  induction ts generalizing t with
  | nil => simp
  | cons u us ih =>
    have h := ih (min t u)
    simp only [List.foldl_cons]
    rcases List.mem_cons.mp h with h1 | h1
    · rw [h1]
      rcases min_choice t u with hm | hm <;> rw [hm] <;> simp
    · exact List.mem_cons_of_mem _ (List.mem_cons_of_mem _ h1)

theorem minList_mem (l : List Int) (h : l ≠ []) : minList l ∈ l := by
  match l with
  | t :: ts => exact foldl_min_mem ts t

/-! ## Rate limiter (`src/services/rateLimiter.ts`) -/

/-- The two private `Map`s of the `RateLimiter` class. -/
structure RateLimiterState where
  limits : List (String × RateLimitInfo)
  requestCounts : List (String × List Int)
deriving DecidableEq, Repr

/-- A freshly constructed `RateLimiter` (both maps empty). -/
def emptyRL : RateLimiterState := ⟨[], []⟩

namespace RateLimiter

/-- Models `RateLimiter.isAllowed(serviceName, config)` at clock value `now`:
returns the admission decision together with the mutated state. -/
def isAllowed (st : RateLimiterState) (now : Int) (serviceName : String)
    (config : ServiceConfig) : Bool × RateLimiterState :=
  let key := serviceName
  -- Get or create rate limit info
  let (limitInfo, limits0, requestCounts0) :=
    match mapGet st.limits key with
    | some li => (li, st.limits, st.requestCounts)
    | none =>
      let li : RateLimitInfo :=
        { remaining := (config.rateLimit.requests : Int)
          resetTime := now + config.rateLimit.window
          lastRequest := 0 }
      (li, mapSet st.limits key li, mapSet st.requestCounts key [])
  -- Clean old requests outside the time window
  let requests := (mapGet requestCounts0 key).getD []
  let validRequests := requests.filter (fun t => now - t < config.rateLimit.window)
  let requestCounts1 := mapSet requestCounts0 key validRequests
  -- Check if we have exceeded the limit
  if config.rateLimit.requests ≤ validRequests.length then
    let oldestRequest := minList validRequests
    let li' := { limitInfo with
                  resetTime := oldestRequest + config.rateLimit.window
                  remaining := 0 }
    (false, { limits := mapSet limits0 key li', requestCounts := requestCounts1 })
  else
    -- Update counters and add this request
    let li' := { limitInfo with
                  remaining := (config.rateLimit.requests : Int) - validRequests.length - 1
                  lastRequest := now }
    (true, { limits := mapSet limits0 key li'
             requestCounts := mapSet requestCounts1 key (validRequests ++ [now]) })

/-- Models `RateLimiter.recordRequest(serviceName)` at clock value `now`. -/
def recordRequest (st : RateLimiterState) (now : Int) (serviceName : String) :
    RateLimiterState :=
  match mapGet st.limits serviceName with
  | none => st
  | some li =>
    if 0 < li.remaining then
      let li' := { li with remaining := li.remaining - 1, lastRequest := now }
      { st with limits := mapSet st.limits serviceName li' }
    else st

/-- Models `RateLimiter.getRemainingRequests(serviceName)`. -/
def getRemainingRequests (st : RateLimiterState) (serviceName : String) : Int :=
  match mapGet st.limits serviceName with
  | some li => li.remaining
  | none => 0

/-- Models `RateLimiter.getResetTime(serviceName)` at clock value `now`. -/
def getResetTime (st : RateLimiterState) (now : Int) (serviceName : String) : Int :=
  match mapGet st.limits serviceName with
  | some li => li.resetTime
  | none => now

/-- Models `RateLimiter.reset(serviceName)`. -/
def reset (st : RateLimiterState) (serviceName : String) : RateLimiterState :=
  { limits := mapDelete st.limits serviceName
    requestCounts := mapDelete st.requestCounts serviceName }

/-- Models `RateLimiter.getRetryAfter(serviceName, config)` at clock value `now`. -/
def getRetryAfter (st : RateLimiterState) (now : Int) (serviceName : String)
    (config : ServiceConfig) : Int :=
  let requests := (mapGet st.requestCounts serviceName).getD []
  if requests.length < config.rateLimit.requests then 0
  else
    let oldestRequest := minList requests
    let resetTime := oldestRequest + config.rateLimit.window
    max 0 (resetTime - now)

end RateLimiter

/-! ## Provider configuration (`src/config/freeApiConfig.ts`) -/

namespace FREE_API_CONFIGS

/-- The `audioRecognition` block of `FREE_API_CONFIGS` (credentials elided:
they are only forwarded to the abstracted network layer). -/
def audioRecognition : String → ServiceConfig := fun s =>
  if s = "acrCloud" then
    { baseUrl := "https://identify-eu-west-1.acrcloud.com/v1/identify"
      rateLimit := ⟨500, 30 * 24 * 60 * 60 * 1000⟩, retryAttempts := 2, timeout := 10000 }
  else
    { baseUrl := "https://api.audd.io/recognize"
      rateLimit := ⟨1000, 30 * 24 * 60 * 60 * 1000⟩, retryAttempts := 2, timeout := 10000 }

/-- The `lyrics` block of `FREE_API_CONFIGS`. -/
def lyrics : String → ServiceConfig := fun s =>
  if s = "lyricsOvh" then
    { baseUrl := "https://api.lyrics.ovh/v1"
      rateLimit := ⟨1000, 24 * 60 * 60 * 1000⟩, retryAttempts := 3, timeout := 8000 }
  else if s = "musixmatch" then
    { baseUrl := "https://api.musixmatch.com/ws/1.1"
      rateLimit := ⟨2000, 24 * 60 * 60 * 1000⟩, retryAttempts := 3, timeout := 8000 }
  else
    { baseUrl := "https://api.lyrics.com/lyric"
      rateLimit := ⟨500, 24 * 60 * 60 * 1000⟩, retryAttempts := 2, timeout := 8000 }

/-- The `translation` block of `FREE_API_CONFIGS`. -/
def translation : String → ServiceConfig := fun s =>
  if s = "libreTranslate" then
    { baseUrl := "https://libretranslate.de/translate"
      rateLimit := ⟨20, 24 * 60 * 60 * 1000⟩, retryAttempts := 2, timeout := 15000 }
  else if s = "myMemory" then
    { baseUrl := "https://api.mymemory.translated.net/get"
      rateLimit := ⟨1000, 24 * 60 * 60 * 1000⟩, retryAttempts := 2, timeout := 10000 }
  else
    { baseUrl := "https://translate.googleapis.com/translate_a/single"
      rateLimit := ⟨100, 60 * 60 * 1000⟩, retryAttempts := 1, timeout := 8000 }

end FREE_API_CONFIGS

/-- Codes of `SUPPORTED_LANGUAGES.translation` from `src/config/freeApiConfig.ts`
(just the codes; the display names play no role in the logic). -/
def SUPPORTED_LANGUAGE_CODES : List String :=
  ["en", "es", "fr", "de", "it", "pt", "ru", "ja", "ko", "zh", "ar", "hi",
   "nl", "pl", "sv"]

/-! ## Abstracted network layer -/

/-- One invocation of a provider adapter, as observed by the dispatch loop:
`throws msg` models a rejected promise / thrown error, `ok none` a clean
"not found", `ok (some r)` a populated response. -/
inductive Outcome (α : Type) where
  | throws (msg : String)
  | ok (r : Option α)
deriving DecidableEq, Repr

/-- The process-wide mutable state: the singleton `rateLimiter` plus the
private `errors` array of each of the three singleton stage services. -/
structure ProcessState where
  rl : RateLimiterState
  recognitionErrors : List ServiceError
  lyricsErrors : List ServiceError
  translationErrors : List ServiceError
deriving DecidableEq, Repr

/-- A freshly started process (empty rate limiter, empty error arrays). -/
def emptyPS : ProcessState := ⟨emptyRL, [], [], []⟩

/-- Models `lyricsTranslatorService.getAllErrors()`: concatenation of the three
services' accumulated error arrays. -/
def getAllErrors (ps : ProcessState) : List ServiceError :=
  ps.recognitionErrors ++ ps.lyricsErrors ++ ps.translationErrors

/-- JavaScript `String.prototype.trim()`: strip leading and trailing
whitespace.  (Defined on the character list so that it evaluates by kernel
reduction; Lean's own `String.trim` is implemented by well-founded recursion
and does not.) -/
def jsTrim (s : String) : String :=
  let ws := fun c : Char => c = ' ' ∨ c = '\t' ∨ c = '\n' ∨ c = '\r'
  String.mk (((s.toList.dropWhile ws).reverse.dropWhile ws).reverse)

/-! ## Lyrics fallback dispatcher (`src/services/freeLyricsService.ts`) -/

namespace FreeLyricsService

/-- The fixed provider priority order (`private readonly services`). -/
def services : List String := ["lyricsOvh", "musixmatch", "lyricsApi"]

/-- The provider loop of `getLyrics`.  `oracle s` is the adapter call for
provider `s` applied to the (cleaned) artist/title of this request. -/
def getLyricsLoop (oracle : String → Outcome LyricsResult) (now : Int) :
    List String → RateLimiterState → List ServiceError →
    Option LyricsResult × RateLimiterState × List ServiceError
  | [], st, errs => (none, st, errs)
  | serviceName :: rest, st, errs =>
    let config := FREE_API_CONFIGS.lyrics serviceName
    let p := RateLimiter.isAllowed st now ("lyrics_" ++ serviceName) config
    if p.1 = false then
      let retryAfter := RateLimiter.getRetryAfter p.2 now ("lyrics_" ++ serviceName) config
      getLyricsLoop oracle now rest p.2
        (errs ++ [{ service := serviceName, error := "Rate limit exceeded",
                    retryAfter := some retryAfter }])
    else
      match oracle serviceName with
      | .throws msg =>
        getLyricsLoop oracle now rest p.2 (errs ++ [{ service := serviceName, error := msg }])
      | .ok none => getLyricsLoop oracle now rest p.2 errs
      | .ok (some result) =>
        if (jsTrim result.lyrics).length > 0 then
          (some result, RateLimiter.recordRequest p.2 now ("lyrics_" ++ serviceName), errs)
        else getLyricsLoop oracle now rest p.2 errs

/-- Models `freeLyricsService.getLyrics(artist, title)`: resets `this.errors`, then
runs the fallback loop (input cleaning only affects the adapter arguments,
which are absorbed into `oracle`). -/
def getLyrics (oracle : String → Outcome LyricsResult) (now : Int)
    (ps : ProcessState) : Option LyricsResult × ProcessState :=
  ((getLyricsLoop oracle now services ps.rl []).1,
   { ps with rl := (getLyricsLoop oracle now services ps.rl []).2.1,
             lyricsErrors := (getLyricsLoop oracle now services ps.rl []).2.2 })

/-- Models `freeLyricsService.hasAvailableService()`: `Array.some` evaluates
`rateLimiter.isAllowed` sequentially and short-circuits on the first `true`;
each check mutates the rate limiter. -/
def hasAvailableLoop (now : Int) (category : String) (cfgs : String → ServiceConfig) :
    List String → RateLimiterState → Bool × RateLimiterState
  | [], st => (false, st)
  | serviceName :: rest, st =>
    let p := RateLimiter.isAllowed st now (category ++ serviceName) (cfgs serviceName)
    if p.1 then (true, p.2) else hasAvailableLoop now category cfgs rest p.2

def hasAvailableService (now : Int) (st : RateLimiterState) : Bool × RateLimiterState :=
  hasAvailableLoop now "lyrics_" FREE_API_CONFIGS.lyrics services st

end FreeLyricsService

/-! ## Audio-recognition fallback dispatcher (`src/services/freeAudioRecognition.ts`) -/

namespace FreeAudioRecognitionService

def services : List String := ["acrCloud", "auddIo"]

/-- The provider loop of `recognizeAudio` (the audio buffer is absorbed into
`oracle`).  Unlike the lyrics loop there is no emptiness check on the
result: any non-null result wins. -/
def recognizeLoop (oracle : String → Outcome AudioRecognitionResult) (now : Int) :
    List String → RateLimiterState → List ServiceError →
    Option AudioRecognitionResult × RateLimiterState × List ServiceError
  | [], st, errs => (none, st, errs)
  | serviceName :: rest, st, errs =>
    let config := FREE_API_CONFIGS.audioRecognition serviceName
    let p := RateLimiter.isAllowed st now ("audioRecognition_" ++ serviceName) config
    if p.1 = false then
      let retryAfter := RateLimiter.getRetryAfter p.2 now ("audioRecognition_" ++ serviceName) config
      recognizeLoop oracle now rest p.2
        (errs ++ [{ service := serviceName, error := "Rate limit exceeded",
                    retryAfter := some retryAfter }])
    else
      match oracle serviceName with
      | .throws msg =>
        recognizeLoop oracle now rest p.2 (errs ++ [{ service := serviceName, error := msg }])
      | .ok none => recognizeLoop oracle now rest p.2 errs
      | .ok (some result) =>
        (some result, RateLimiter.recordRequest p.2 now ("audioRecognition_" ++ serviceName), errs)

/-- Models `freeAudioRecognitionService.recognizeAudio(audioBuffer)`. -/
def recognizeAudio (oracle : String → Outcome AudioRecognitionResult) (now : Int)
    (ps : ProcessState) : Option AudioRecognitionResult × ProcessState :=
  ((recognizeLoop oracle now services ps.rl []).1,
   { ps with rl := (recognizeLoop oracle now services ps.rl []).2.1,
             recognitionErrors := (recognizeLoop oracle now services ps.rl []).2.2 })

def hasAvailableService (now : Int) (st : RateLimiterState) : Bool × RateLimiterState :=
  FreeLyricsService.hasAvailableLoop now "audioRecognition_"
    FREE_API_CONFIGS.audioRecognition services st

end FreeAudioRecognitionService

/-! ## Translation fallback dispatcher (`src/services/freeTranslationService.ts`) -/

/-- JavaScript truthiness of an optional string (`undefined` and `""` are
falsy). -/
def strTruthy : Option String → Bool
  | none => false
  | some s => !(s = "")

namespace FreeTranslationService

/-- The fixed provider priority order (`private readonly services`). -/
def services : List String := ["myMemory", "libreTranslate", "googleTranslateFree"]

/-- Models `isSupportedLanguage(languageCode)`. -/
def isSupportedLanguage (languageCode : String) : Bool :=
  SUPPORTED_LANGUAGE_CODES.any (fun code => code = languageCode)

/-- Models `splitTextIntoChunks(text, maxChunkSize)`.  `String.split` on the
characters `.?!` produces extra empty pieces where the JavaScript regex
`[.!?]+` merges delimiters, but those pieces are discarded by the
`!trimmedSentence` guard in both versions, so the chunks agree. -/
def splitTextIntoChunks (text : String) (maxChunkSize : Nat) : List String :=
  if text.length ≤ maxChunkSize then [text]
  else
    let sentences := text.split (fun c => c == '.' || c == '!' || c == '?')
    let step : List String × String → String → List String × String :=
      fun acc sentence =>
        let chunks := acc.1
        let currentChunk := acc.2
        let trimmed := jsTrim sentence
        if trimmed = "" then (chunks, currentChunk)
        else if currentChunk.length + trimmed.length + 1 ≤ maxChunkSize then
          (chunks, currentChunk ++ (if currentChunk ≠ "" then ". " else "") ++ trimmed)
        else
          (if currentChunk ≠ "" then chunks ++ [currentChunk ++ "."] else chunks, trimmed)
    let r := sentences.foldl step ([], "")
    if r.2 ≠ "" then r.1 ++ [r.2 ++ "."] else r.1

/-- The per-chunk provider loop inside `translateText`.  On a non-null
adapter result the request is recorded and the loop breaks; a null result
falls through to the next provider without an error entry. -/
def translateLoop (oracle : String → Outcome TranslationResult) (now : Int) :
    List String → RateLimiterState → List ServiceError →
    Option TranslationResult × RateLimiterState × List ServiceError
  | [], st, errs => (none, st, errs)
  | serviceName :: rest, st, errs =>
    let config := FREE_API_CONFIGS.translation serviceName
    let p := RateLimiter.isAllowed st now ("translation_" ++ serviceName) config
    if p.1 = false then
      let retryAfter := RateLimiter.getRetryAfter p.2 now ("translation_" ++ serviceName) config
      translateLoop oracle now rest p.2
        (errs ++ [{ service := serviceName, error := "Rate limit exceeded",
                    retryAfter := some retryAfter }])
    else
      match oracle serviceName with
      | .throws msg =>
        translateLoop oracle now rest p.2 (errs ++ [{ service := serviceName, error := msg }])
      | .ok none => translateLoop oracle now rest p.2 errs
      | .ok (some chunkResult) =>
        (some chunkResult, RateLimiter.recordRequest p.2 now ("translation_" ++ serviceName), errs)

/-- The `for (const chunk of chunks)` loop of `translateText`: collects the
translated chunk texts, threading the detected source language
(`sourceLanguage = chunkResult.sourceLanguage`) and the rate-limiter state;
`none` models the `return null` on a failed chunk.  The oracle is indexed by
chunk position and provider name (the chunk text is absorbed into it). -/
def translateChunks (oracle : Nat → String → Outcome TranslationResult) (now : Int) :
    List String → Nat → String → RateLimiterState → List ServiceError →
    Option (List String × String) × RateLimiterState × List ServiceError
  | [], _, srcLang, st, errs => (some ([], srcLang), st, errs)
  | _chunk :: rest, idx, _srcLang, st, errs =>
    match translateLoop (oracle idx) now services st errs with
    | (none, st', errs') => (none, st', errs')
    | (some chunkResult, st', errs') =>
      match translateChunks oracle now rest (idx + 1) chunkResult.sourceLanguage st' errs' with
      | (none, st'', errs'') => (none, st'', errs'')
      | (some (tail, finalSrc), st'', errs'') =>
        (some (chunkResult.translatedText :: tail, finalSrc), st'', errs'')

/-- Models `freeTranslationService.translateText(text, targetLanguage, sourceLanguage)`:
resets `this.errors`, throws on an unsupported target language, then runs the
chunk loop and assembles the combined result. -/
def translateText (oracle : Nat → String → Outcome TranslationResult) (now : Int)
    (ps : ProcessState) (text targetLanguage sourceLanguage : String) :
    Except String (Option TranslationResult) × ProcessState :=
  if isSupportedLanguage targetLanguage = false then
    (.error ("Unsupported target language: " ++ targetLanguage),
     { ps with translationErrors := [] })
  else
    match translateChunks oracle now (splitTextIntoChunks text 1000) 0
        sourceLanguage ps.rl [] with
    | (none, st', errs') => (.ok none, { ps with rl := st', translationErrors := errs' })
    | (some (translatedChunks, finalSrc), st', errs') =>
      if translatedChunks.length = 0 then
        (.ok none, { ps with rl := st', translationErrors := errs' })
      else
        (.ok (some
          { translatedText := String.intercalate "\n" translatedChunks
            sourceLanguage := finalSrc
            targetLanguage := targetLanguage
            source := if translatedChunks.length > 0 then "Combined" else "Unknown" }),
         { ps with rl := st', translationErrors := errs' })

def hasAvailableService (now : Int) (st : RateLimiterState) : Bool × RateLimiterState :=
  FreeLyricsService.hasAvailableLoop now "translation_"
    FREE_API_CONFIGS.translation services st

end FreeTranslationService

/-! ## The Lyrics.ovh adapter (`freeLyricsService.ts`, `getLyricsFromOvh`) -/

/-- The slice of a `fetch` response the adapter inspects. -/
structure HttpResponse where
  ok : Bool
  status : Nat
deriving DecidableEq, Repr

/-- The decoded `LyricsOvhResponse` body. -/
structure LyricsOvhResponse where
  lyrics : Option String := none
  error : Option String := none
deriving DecidableEq, Repr

/-- Models `getLyricsFromOvh(artist, title)` as a function of the network response:
404 is a clean miss, other non-2xx statuses throw, a missing/empty `lyrics`
field or a present `error` field is a miss, and a hit is tagged with
`source: 'Lyrics.ovh'`. -/
def getLyricsFromOvh (response : HttpResponse) (data : LyricsOvhResponse)
    (artist title : String) : Except String (Option LyricsResult) :=
  if response.ok = false then
    if response.status = 404 then .ok none
    else .error ("Lyrics.ovh API error: " ++ toString response.status)
  else if strTruthy data.lyrics = false || strTruthy data.error then .ok none
  else .ok (some { lyrics := jsTrim (data.lyrics.getD ""), title := title,
                   artist := artist, source := "Lyrics.ovh" })

/-! ## Pipeline orchestrator (`src/services/lyricsTranslatorService.ts`) -/

/-- Models `LyricsTranslationPipeline` from `lyricsTranslatorService.ts`.  The
pipeline runs at a single modelled instant, so `processingTime` is always
`0` here. -/
structure LyricsTranslationPipeline where
  audioRecognition : Option AudioRecognitionResult := none
  lyrics : Option LyricsResult := none
  translation : Option TranslationResult := none
  errors : List ServiceError
  processingTime : Int
  confidence : Rat
deriving DecidableEq, Repr

structure SongInfo where
  artist : String
  title : String
deriving DecidableEq, Repr

/-- Models `TranslationOptions` from `lyricsTranslatorService.ts`. -/
structure TranslationOptions where
  targetLanguage : String
  sourceLanguage : Option String := none
  skipAudioRecognition : Bool := false
  manualSongInfo : Option SongInfo := none
  qualityThreshold : Option Rat := none
deriving DecidableEq, Repr

/-- One `batchTranslate` request entry. -/
structure BatchRequest where
  artist : String
  title : String
  targetLanguage : String
  sourceLanguage : Option String := none
deriving DecidableEq, Repr

/-- The network behavior backing one pipeline invocation: for every stage an
adapter oracle per retry attempt (the stage wrappers re-run the whole
fallback list on a retry and the network may answer differently then). -/
structure PipelineEnv where
  recog : Nat → String → Outcome AudioRecognitionResult
  lyr : Nat → String → Outcome LyricsResult
  trans : Nat → Nat → String → Outcome TranslationResult

namespace LyricsTranslatorService

def maxRetries : Nat := 2
def retryDelay : Int := 1000

/-- The `for (attempt …)` loop of `recognizeAudioWithRetry`: any non-null
result returns immediately; otherwise (a clean null, or a caught throw —
which cannot arise from `recognizeAudio` since it catches internally) the
next attempt runs. -/
def recognizeRetryLoop (oracles : Nat → String → Outcome AudioRecognitionResult)
    (now : Int) : Nat → Nat → ProcessState → Option AudioRecognitionResult × ProcessState
  | 0, _, ps => (none, ps)
  | fuel + 1, attempt, ps =>
    let p := FreeAudioRecognitionService.recognizeAudio (oracles attempt) now ps
    match p.1 with
    | some result => (some result, p.2)
    | none => recognizeRetryLoop oracles now fuel (attempt + 1) p.2

def recognizeAudioWithRetry (oracles : Nat → String → Outcome AudioRecognitionResult)
    (now : Int) (ps : ProcessState) : Option AudioRecognitionResult × ProcessState :=
  recognizeRetryLoop oracles now maxRetries 0 ps

/-- The `for (attempt …)` loop of `getLyricsWithRetry`: a result passing the
`result.lyrics.trim().length > 0` check returns immediately; otherwise the
next attempt runs. -/
def lyricsRetryLoop (oracles : Nat → String → Outcome LyricsResult)
    (now : Int) : Nat → Nat → ProcessState → Option LyricsResult × ProcessState
  | 0, _, ps => (none, ps)
  | fuel + 1, attempt, ps =>
    let p := FreeLyricsService.getLyrics (oracles attempt) now ps
    match p.1 with
    | some result =>
      if (jsTrim result.lyrics).length > 0 then (some result, p.2)
      else lyricsRetryLoop oracles now fuel (attempt + 1) p.2
    | none => lyricsRetryLoop oracles now fuel (attempt + 1) p.2

def getLyricsWithRetry (oracles : Nat → String → Outcome LyricsResult)
    (now : Int) (ps : ProcessState) : Option LyricsResult × ProcessState :=
  lyricsRetryLoop oracles now maxRetries 0 ps

/-- The `for (attempt …)` loop of `translateWithRetry`: `translateText` may
throw (unsupported target language); the `catch` swallows the error and the
next attempt runs, exactly like a null or blank result. -/
def translateRetryLoop (oracles : Nat → Nat → String → Outcome TranslationResult)
    (now : Int) (text targetLanguage sourceLanguage : String) :
    Nat → Nat → ProcessState → Option TranslationResult × ProcessState
  | 0, _, ps => (none, ps)
  | fuel + 1, attempt, ps =>
    match FreeTranslationService.translateText (oracles attempt) now ps
        text targetLanguage sourceLanguage with
    | (.ok (some result), ps') =>
      if (jsTrim result.translatedText).length > 0 then (some result, ps')
      else translateRetryLoop oracles now text targetLanguage sourceLanguage fuel (attempt + 1) ps'
    | (.ok none, ps') =>
      translateRetryLoop oracles now text targetLanguage sourceLanguage fuel (attempt + 1) ps'
    | (.error _, ps') =>
      translateRetryLoop oracles now text targetLanguage sourceLanguage fuel (attempt + 1) ps'

def translateWithRetry (oracles : Nat → Nat → String → Outcome TranslationResult)
    (now : Int) (text targetLanguage sourceLanguage : String) (ps : ProcessState) :
    Option TranslationResult × ProcessState :=
  translateRetryLoop oracles now text targetLanguage sourceLanguage maxRetries 0 ps

/-- Models `calculateOverallConfidence(result)`.  `if (…?.confidence)` is a JS
truthiness test, so a confidence of `0` is skipped. -/
def calculateOverallConfidence (result : LyricsTranslationPipeline) : Rat :=
  let c0 : Rat := 1/2
  let c1 :=
    match result.audioRecognition with
    | some ar =>
      match ar.confidence with
      | some conf => if conf ≠ 0 then max c0 (conf * (3/10)) else c0
      | none => c0
    | none => c0
  let c2 :=
    match result.lyrics with
    | some ly =>
      let a := if ly.lyrics.length > 100 then c1 + 1/10 else c1
      let b := if ly.lyrics.length > 500 then a + 1/10 else a
      if ly.source = "Musixmatch" then b + 1/20 else b
    | none => c1
  let c3 :=
    match result.translation with
    | some tr =>
      let denom : Rat := match result.lyrics with
        | some ly => if ly.lyrics.length = 0 then 1 else (ly.lyrics.length : Rat)
        | none => 1
      let ratio : Rat := (tr.translatedText.length : Rat) / denom
      let a := if ratio > 3/10 ∧ ratio < 3 then c2 + 1/10 else c2
      if tr.source = "MyMemory" then a + 1/20 else a
    | none => c2
  let c4 := c3 - (result.errors.length : Rat) * (1/10)
  min 1 (max 0 c4)

/-- Steps 2 and 3 of `translateFromAudio` (lines 60–105): lyrics fetch and
translation, entered with the recognition result `ar` already stored. -/
def pipelineAfterRecognition (env : PipelineEnv) (now : Int)
    (options : TranslationOptions) (ar : Option AudioRecognitionResult)
    (ps : ProcessState) : LyricsTranslationPipeline × ProcessState :=
  let songInfo := options.manualSongInfo.getD
    { artist := (ar.bind (·.artist)).getD "", title := (ar.bind (·.title)).getD "" }
  if songInfo.artist = "" ∨ songInfo.title = "" then
    ({ audioRecognition := ar
       errors := [{ service := "lyrics", error := "Missing artist or title information" }]
       processingTime := 0, confidence := 0 }, ps)
  else
    match getLyricsWithRetry env.lyr now ps with
    | (none, ps2) =>
      ({ audioRecognition := ar
         errors := [{ service := "lyrics",
                      error := "Failed to fetch lyrics from all available services" }]
         processingTime := 0, confidence := 0 }, ps2)
    | (some ly, ps2) =>
      match translateWithRetry env.trans now ly.lyrics options.targetLanguage
          (options.sourceLanguage.getD "auto") ps2 with
      | (none, ps3) =>
        ({ audioRecognition := ar, lyrics := some ly
           errors := [{ service := "translation",
                        error := "Failed to translate lyrics from all available services" }]
           processingTime := 0, confidence := 0 }, ps3)
      | (some tr, ps3) =>
        let out : LyricsTranslationPipeline :=
          { audioRecognition := ar, lyrics := some ly, translation := some tr
            errors := [], processingTime := 0, confidence := 0 }
        ({ out with confidence := calculateOverallConfidence out }, ps3)

/-- Models `translateFromAudio(audioBuffer, options)`.  The audio buffer is
absorbed into `env.recog`; the surrounding `try` is dead in the model since
no inner call can throw past its own handler. -/
def translateFromAudio (env : PipelineEnv) (now : Int) (ps : ProcessState)
    (options : TranslationOptions) : LyricsTranslationPipeline × ProcessState :=
  if options.skipAudioRecognition = false ∧ options.manualSongInfo = none then
    match recognizeAudioWithRetry env.recog now ps with
    | (none, ps1) =>
      ({ errors := [{ service := "audioRecognition",
                      error := "Failed to recognize audio from all available services" }]
         processingTime := 0, confidence := 0 }, ps1)
    | (some ar, ps1) => pipelineAfterRecognition env now options (some ar) ps1
  else pipelineAfterRecognition env now options none ps

/-- Models `translateFromSongInfo(artist, title, targetLanguage, sourceLanguage)`. -/
def translateFromSongInfo (env : PipelineEnv) (now : Int) (ps : ProcessState)
    (artist title targetLanguage : String) (sourceLanguage : Option String) :
    LyricsTranslationPipeline × ProcessState :=
  translateFromAudio env now ps
    { targetLanguage := targetLanguage, sourceLanguage := sourceLanguage
      skipAudioRecognition := true, manualSongInfo := some ⟨artist, title⟩ }

/-- Models `translateLyricsOnly(lyrics, targetLanguage, sourceLanguage, songInfo)`. -/
def translateLyricsOnly (oracles : Nat → Nat → String → Outcome TranslationResult)
    (now : Int) (ps : ProcessState) (lyricsText targetLanguage : String)
    (sourceLanguage : Option String) (songInfo : Option SongInfo) :
    LyricsTranslationPipeline × ProcessState :=
  let artist := match songInfo with
    | some si => if si.artist = "" then "Unknown Artist" else si.artist
    | none => "Unknown Artist"
  let title := match songInfo with
    | some si => if si.title = "" then "Unknown Title" else si.title
    | none => "Unknown Title"
  let base : LyricsTranslationPipeline :=
    { lyrics := some { lyrics := lyricsText, artist := artist, title := title,
                       source := "Manual" }
      errors := [], processingTime := 0, confidence := 0 }
  match translateWithRetry oracles now lyricsText targetLanguage
      (sourceLanguage.getD "auto") ps with
  | (none, ps') =>
    let out := { base with
      errors := [{ service := "translation",
                   error := "Failed to translate lyrics from all available services" }] }
    ({ out with confidence := calculateOverallConfidence out }, ps')
  | (some tr, ps') =>
    let out := { base with translation := some tr }
    ({ out with confidence := calculateOverallConfidence out }, ps')

/-- Models `batchTranslate(requests)`: sequential, one outcome per request; the
`catch` in the loop body is dead in the model since `translateFromSongInfo`
is total.  `benv i` is the network behavior seen by the `i`-th item. -/
def batchTranslate (benv : Nat → PipelineEnv) (now : Int) :
    ProcessState → List BatchRequest → List LyricsTranslationPipeline × ProcessState
  | ps, [] => ([], ps)
  | ps, request :: rest =>
    let p := translateFromSongInfo (benv 0) now ps request.artist request.title
      request.targetLanguage request.sourceLanguage
    let q := batchTranslate (fun i => benv (i + 1)) now p.2 rest
    (p.1 :: q.1, q.2)

/-- Models `healthCheck()`: the three category availability probes run in order,
each threading the rate-limiter state it may have mutated. -/
structure HealthReport where
  status : String
  audioRecognitionAvailable : Bool
  lyricsAvailable : Bool
  translationAvailable : Bool
  details : List String
deriving DecidableEq, Repr

def healthCheck (now : Int) (st : RateLimiterState) : HealthReport × RateLimiterState :=
  let a := FreeAudioRecognitionService.hasAvailableService now st
  let l := FreeLyricsService.hasAvailableService now a.2
  let t := FreeTranslationService.hasAvailableService now l.2
  let availableServices :=
    (if a.1 then 1 else 0) + (if l.1 then 1 else 0) + (if t.1 then 1 else 0)
  let details :=
    (if a.1 = false then ["Audio recognition services unavailable"] else []) ++
    (if l.1 = false then ["Lyrics services unavailable"] else []) ++
    (if t.1 = false then ["Translation services unavailable"] else [])
  let status :=
    if availableServices = 3 then "healthy"
    else if 1 ≤ availableServices then "degraded"
    else "unhealthy"
  ({ status := status, audioRecognitionAvailable := a.1, lyricsAvailable := l.1,
     translationAvailable := t.1, details := details }, t.2)

end LyricsTranslatorService

/-! ## Rate-limiter lemmas -/

namespace RateLimiter

/-- Evaluation of `isAllowed` when the key has been seen before. -/
theorem isAllowed_eq_some (st : RateLimiterState) (now : Int) (key : String)
    (cfg : ServiceConfig) (li : RateLimitInfo) (hli : mapGet st.limits key = some li) :
    isAllowed st now key cfg =
      (if cfg.rateLimit.requests ≤
          (((mapGet st.requestCounts key).getD []).filter
            (fun t => now - t < cfg.rateLimit.window)).length then
         (false, ⟨mapSet st.limits key
             ⟨0, minList (((mapGet st.requestCounts key).getD []).filter
                 (fun t => now - t < cfg.rateLimit.window)) + cfg.rateLimit.window,
               li.lastRequest⟩,
           mapSet st.requestCounts key
             (((mapGet st.requestCounts key).getD []).filter
               (fun t => now - t < cfg.rateLimit.window))⟩)
       else
         (true, ⟨mapSet st.limits key
             ⟨(cfg.rateLimit.requests : Int) -
                 (((mapGet st.requestCounts key).getD []).filter
                   (fun t => now - t < cfg.rateLimit.window)).length - 1,
               li.resetTime, now⟩,
           mapSet st.requestCounts key
             ((((mapGet st.requestCounts key).getD []).filter
               (fun t => now - t < cfg.rateLimit.window)) ++ [now])⟩)) := by
  unfold isAllowed
  simp only [hli]
  by_cases hc : cfg.rateLimit.requests ≤
      (((mapGet st.requestCounts key).getD []).filter
        (fun t => now - t < cfg.rateLimit.window)).length <;>
    simp [hc, mapSet_mapSet]

/-- Evaluation of `isAllowed` when the key is unseen: the state for the key
is lazily created and the request list starts empty. -/
theorem isAllowed_eq_none (st : RateLimiterState) (now : Int) (key : String)
    (cfg : ServiceConfig) (hli : mapGet st.limits key = none) :
    isAllowed st now key cfg =
      (if cfg.rateLimit.requests = 0 then
         (false, ⟨mapSet st.limits key
             ⟨0, minList [] + cfg.rateLimit.window, 0⟩,
           mapSet st.requestCounts key []⟩)
       else
         (true, ⟨mapSet st.limits key
             ⟨(cfg.rateLimit.requests : Int) - 0 - 1, now + cfg.rateLimit.window, now⟩,
           mapSet st.requestCounts key ([] ++ [now])⟩)) := by
  unfold isAllowed
  simp only [hli]
  by_cases hc : cfg.rateLimit.requests = 0 <;>
    simp [hc, mapSet_mapSet, Nat.le_zero, minList]

/-- After a successful admission the new timestamp is appended to the pruned
window and `remaining` is set to `maxRequests - (booked count)`. -/
theorem isAllowed_true_spec (st : RateLimiterState) (now : Int) (key : String)
    (cfg : ServiceConfig) (htrue : (isAllowed st now key cfg).1 = true) :
    ∃ (rlist : List Int) (rt : Int),
      mapGet (isAllowed st now key cfg).2.limits key =
        some ⟨(cfg.rateLimit.requests : Int) - rlist.length - 1, rt, now⟩ ∧
      mapGet (isAllowed st now key cfg).2.requestCounts key = some (rlist ++ [now]) ∧
      rlist.length < cfg.rateLimit.requests := by
  rcases hli : mapGet st.limits key with _ | li
  · rw [isAllowed_eq_none st now key cfg hli] at htrue ⊢
    by_cases hc : cfg.rateLimit.requests = 0
    · simp [hc] at htrue
    · refine ⟨[], now + cfg.rateLimit.window, ?_⟩
      simp [hc, mapGet_mapSet_self, Nat.pos_of_ne_zero hc]
  · rw [isAllowed_eq_some st now key cfg li hli] at htrue ⊢
    by_cases hc : cfg.rateLimit.requests ≤
        (((mapGet st.requestCounts key).getD []).filter
          (fun t => now - t < cfg.rateLimit.window)).length
    · simp [hc] at htrue
    · refine ⟨((mapGet st.requestCounts key).getD []).filter
        (fun t => now - t < cfg.rateLimit.window), li.resetTime, ?_⟩
      simp [hc, mapGet_mapSet_self, Nat.lt_of_not_le hc]

/-- Evaluation of `recordRequest` when the key has been seen. -/
theorem recordRequest_eq_some (st : RateLimiterState) (now : Int) (key : String)
    (li : RateLimitInfo) (hli : mapGet st.limits key = some li) :
    recordRequest st now key =
      (if 0 < li.remaining then
        { st with limits := mapSet st.limits key ⟨li.remaining - 1, li.resetTime, now⟩ }
       else st) := by
  unfold recordRequest
  simp only [hli]

end RateLimiter

/-! ## C4: `recordRequest` double-books the `remaining` counter -/

/-- Counterexample to C4 (claimed: after an admitted `isAllowed` call, a
subsequent `recordRequest` leaves `getRemainingRequests` at
`maxRequests - booked`).  With `maxRequests = 5`, one admitted call books one
timestamp, yet after `recordRequest` the remaining counter reads `3`, not
`5 - 1 = 4`: `recordRequest` decremented the already-booked counter again. -/
theorem c4_counterexample :
    ((mapGet (RateLimiter.isAllowed emptyRL 0 "k"
        { rateLimit := ⟨5, 1000⟩ }).2.requestCounts "k").getD []).length = 1 ∧
    RateLimiter.getRemainingRequests
        (RateLimiter.recordRequest
          (RateLimiter.isAllowed emptyRL 0 "k" { rateLimit := ⟨5, 1000⟩ }).2 0 "k") "k" ≠
      (5 : Int) - 1 := by
  decide

/-- C4 (amended): after `isAllowed` admits a call (booking the slot), a
subsequent `recordRequest` decrements the introspective `remaining` counter a
second time: it ends at `maxRequests - booked - 1` whenever the window is not
full (`booked < maxRequests`), and at `0` otherwise.  The timestamp window —
the data admission decisions are made from — is not touched. -/
theorem c4_amended (st : RateLimiterState) (now now2 : Int) (key : String)
    (cfg : ServiceConfig) (htrue : (RateLimiter.isAllowed st now key cfg).1 = true) :
    RateLimiter.getRemainingRequests
        (RateLimiter.recordRequest (RateLimiter.isAllowed st now key cfg).2 now2 key) key =
      (if ((mapGet (RateLimiter.isAllowed st now key cfg).2.requestCounts key).getD []).length
            < cfg.rateLimit.requests
       then (cfg.rateLimit.requests : Int) -
         ((mapGet (RateLimiter.isAllowed st now key cfg).2.requestCounts key).getD []).length - 1
       else 0) ∧
    (RateLimiter.recordRequest
        (RateLimiter.isAllowed st now key cfg).2 now2 key).requestCounts =
      (RateLimiter.isAllowed st now key cfg).2.requestCounts := by
  obtain ⟨rlist, rt, hlim, hreq, hlt⟩ :=
    RateLimiter.isAllowed_true_spec st now key cfg htrue
  have hb : ((mapGet (RateLimiter.isAllowed st now key cfg).2.requestCounts key).getD
      []).length = rlist.length + 1 := by
    rw [hreq]
    simp
  constructor
  · rw [hb, RateLimiter.recordRequest_eq_some _ now2 _ _ hlim]
    by_cases hr : (0 : Int) < (cfg.rateLimit.requests : Int) - rlist.length - 1
    · rw [if_pos hr]
      simp only [RateLimiter.getRemainingRequests, mapGet_mapSet_self]
      rw [if_pos (by omega)]
      push_cast
      ring
    · rw [if_neg hr]
      simp only [RateLimiter.getRemainingRequests, hlim]
      rw [if_neg (by omega)]
      omega
  · rw [RateLimiter.recordRequest_eq_some _ now2 _ _ hlim]
    by_cases hr : (0 : Int) < (cfg.rateLimit.requests : Int) - rlist.length - 1 <;>
      simp [hr]

/-! ## C1: sliding-window admission -/

theorem length_filter_lt_of_mem (l : List Int) (p : Int → Bool) (x : Int)
    (hx : x ∈ l) (hp : p x = false) : (l.filter p).length < l.length := by
  induction l with
  | nil => cases hx
  | cons a as ih =>
    rcases List.mem_cons.mp hx with h | h
    · subst h
      simp only [List.filter_cons, hp, Bool.false_eq_true, if_false, List.length_cons]
      exact Nat.lt_succ_of_le (List.length_filter_le _ _)
    · cases hpa : p a
      · simp only [List.filter_cons, hpa, Bool.false_eq_true, if_false, List.length_cons]
        exact Nat.lt_succ_of_le (List.length_filter_le _ _)
      · simp only [List.filter_cons, hpa, if_true, List.length_cons]
        exact Nat.succ_lt_succ (ih h)

/-- Verification harness: the sequence of `isAllowed` calls for one key at
the given clock values, collecting the admission decisions. -/
def runCalls (key : String) (cfg : ServiceConfig) :
    RateLimiterState → List Int → List Bool × RateLimiterState
  | st, [] => ([], st)
  | st, t :: ts =>
    let p := RateLimiter.isAllowed st t key cfg
    let q := runCalls key cfg p.2 ts
    (p.1 :: q.1, q.2)

namespace RateLimiter

/-- Admission happens exactly when strictly fewer than `maxRequests`
recorded timestamps lie strictly inside the trailing window.  The
`hcons` hypothesis states the key's two maps are consistent, which holds in
every reachable state. -/
theorem isAllowed_iff_lt (st : RateLimiterState) (now : Int) (key : String)
    (cfg : ServiceConfig)
    (hcons : mapGet st.limits key = none → (mapGet st.requestCounts key).getD [] = [])
    (hpos : 0 < cfg.rateLimit.requests) :
    ((isAllowed st now key cfg).1 = true ↔
      (((mapGet st.requestCounts key).getD []).filter
        (fun t => now - t < cfg.rateLimit.window)).length < cfg.rateLimit.requests) := by
  rcases hli : mapGet st.limits key with _ | li
  · rw [isAllowed_eq_none st now key cfg hli, hcons hli]
    have h0 : cfg.rateLimit.requests ≠ 0 := by omega
    simp [h0, hpos]
  · rw [isAllowed_eq_some st now key cfg li hli]
    by_cases hc : cfg.rateLimit.requests ≤
        (((mapGet st.requestCounts key).getD []).filter
          (fun t => now - t < cfg.rateLimit.window)).length
    · rw [if_pos hc]
      simp [Nat.not_lt.mpr hc]
    · rw [if_neg hc]
      simp [Nat.not_le.mp hc]

/-- One admitted call: appends the timestamp, keeps everything else. -/
theorem isAllowed_step_true (st : RateLimiterState) (now : Int) (key : String)
    (cfg : ServiceConfig) (acc : List Int)
    (hrc : (mapGet st.requestCounts key).getD [] = acc)
    (hinit : mapGet st.limits key = none → acc = [])
    (hwin : ∀ t ∈ acc, now - t < cfg.rateLimit.window)
    (hlen : acc.length < cfg.rateLimit.requests) :
    (isAllowed st now key cfg).1 = true ∧
    mapGet (isAllowed st now key cfg).2.requestCounts key = some (acc ++ [now]) ∧
    (mapGet (isAllowed st now key cfg).2.limits key).isSome = true := by
  rcases hli : mapGet st.limits key with _ | li
  · have hacc := hinit hli
    subst hacc
    rw [isAllowed_eq_none st now key cfg hli]
    have h0 : cfg.rateLimit.requests ≠ 0 := by omega
    simp [h0, mapGet_mapSet_self]
  · rw [isAllowed_eq_some st now key cfg li hli]
    have hfilter : ((mapGet st.requestCounts key).getD []).filter
        (fun t => now - t < cfg.rateLimit.window) = acc := by
      rw [hrc]
      exact List.filter_eq_self.mpr (fun t ht => by simpa using hwin t ht)
    rw [hfilter, if_neg (Nat.not_le.mpr hlen)]
    simp [mapGet_mapSet_self]

/-- One denied call: the pruned window is kept as is. -/
theorem isAllowed_step_false (st : RateLimiterState) (now : Int) (key : String)
    (cfg : ServiceConfig) (acc : List Int)
    (hrc : (mapGet st.requestCounts key).getD [] = acc)
    (hsome : (mapGet st.limits key).isSome = true)
    (hwin : ∀ t ∈ acc, now - t < cfg.rateLimit.window)
    (hfull : cfg.rateLimit.requests ≤ acc.length) :
    (isAllowed st now key cfg).1 = false ∧
    mapGet (isAllowed st now key cfg).2.requestCounts key = some acc ∧
    (mapGet (isAllowed st now key cfg).2.limits key).isSome = true := by
  obtain ⟨li, hli⟩ := Option.isSome_iff_exists.mp hsome
  rw [isAllowed_eq_some st now key cfg li hli]
  have hfilter : ((mapGet st.requestCounts key).getD []).filter
      (fun t => now - t < cfg.rateLimit.window) = acc := by
    rw [hrc]
    exact List.filter_eq_self.mpr (fun t ht => by simpa using hwin t ht)
  rw [hfilter, if_pos hfull]
  simp [mapGet_mapSet_self]

/-- Evaluation of `getRetryAfter` on a full window. -/
theorem getRetryAfter_full (st : RateLimiterState) (now : Int) (key : String)
    (cfg : ServiceConfig) (acc : List Int)
    (hrc : mapGet st.requestCounts key = some acc)
    (hfull : ¬ acc.length < cfg.rateLimit.requests) :
    getRetryAfter st now key cfg = max 0 (minList acc + cfg.rateLimit.window - now) := by
  unfold getRetryAfter
  simp [hrc, hfull]

/-- A sequence of calls whose timestamps all fit inside one window and whose
total count stays within the budget is admitted throughout, and the recorded
window afterwards is exactly the list of timestamps. -/
theorem runCalls_admits (key : String) (cfg : ServiceConfig) (us : List Int) :
    ∀ (st : RateLimiterState) (acc : List Int),
    (mapGet st.requestCounts key).getD [] = acc →
    (mapGet st.limits key = none → acc = []) →
    acc.length + us.length ≤ cfg.rateLimit.requests →
    (∀ u ∈ us, ∀ t ∈ acc, u - t < cfg.rateLimit.window) →
    (∀ u ∈ us, ∀ u' ∈ us, u - u' < cfg.rateLimit.window) →
    (∀ b ∈ (runCalls key cfg st us).1, b = true) ∧
    (mapGet (runCalls key cfg st us).2.requestCounts key).getD [] = acc ++ us ∧
    (mapGet (runCalls key cfg st us).2.limits key = none → acc ++ us = []) := by
  induction us with
  | nil =>
    intro st acc h1 h2 _ _ _
    simpa [runCalls] using ⟨h1, h2⟩
  | cons u rest ih =>
    intro st acc h1 h2 hcount hAU hUU
    have hlen : acc.length < cfg.rateLimit.requests := by
      simp only [List.length_cons] at hcount
      omega
    obtain ⟨hb, hrc', hsome⟩ := isAllowed_step_true st u key cfg acc h1 h2
      (fun t ht => hAU u (List.mem_cons_self u rest) t ht) hlen
    have ihr := ih (isAllowed st u key cfg).2 (acc ++ [u])
      (by rw [hrc']; rfl)
      (fun hn => by rw [hn] at hsome; simp at hsome)
      (by simp only [List.length_append, List.length_singleton, List.length_cons,
            List.length_nil] at hcount ⊢; omega)
      (fun u' hu' t ht => by
        rcases List.mem_append.mp ht with h | h
        · exact hAU u' (List.mem_cons_of_mem u hu') t h
        · rw [List.mem_singleton.mp h]
          exact hUU u' (List.mem_cons_of_mem u hu') u (List.mem_cons_self u rest))
      (fun u' hu' u'' hu'' =>
        hUU u' (List.mem_cons_of_mem u hu') u'' (List.mem_cons_of_mem u hu''))
    refine ⟨?_, ?_, ?_⟩
    · intro b hbmem
      simp only [runCalls] at hbmem
      rcases List.mem_cons.mp hbmem with h | h
      · rw [h, hb]
      · exact ihr.1 b h
    · simp only [runCalls]
      rw [ihr.2.1, List.append_assoc]
      rfl
    · intro hn
      simp only [runCalls] at hn
      have := ihr.2.2 hn
      simp at this
end RateLimiter

/-- C1 (confirmed): sliding-window admission.  (1) `isAllowed` admits a
call exactly when strictly fewer than `maxRequests` recorded timestamps lie
strictly within the trailing window (a timestamp exactly `windowMillis` old
is pruned by the strict `now - t < window` filter).  (2)–(5) After exactly
`maxRequests` admitted calls within one window, the next `isAllowed` call
returns `false` and `getRetryAfter` is positive and at most `windowMillis`.
(6) Once `windowMillis` has elapsed past the oldest recorded timestamp,
`isAllowed` returns `true` again. -/
theorem c1_sliding_window (key : String) (cfg : ServiceConfig)
    (st0 : RateLimiterState) (ts : List Int) (now now2 : Int)
    (hcons : mapGet st0.limits key = none →
      (mapGet st0.requestCounts key).getD [] = [])
    (hpos : 0 < cfg.rateLimit.requests)
    (hlen : ts.length = cfg.rateLimit.requests)
    (hle : ∀ t ∈ ts, t ≤ now)
    (hwin : ∀ t ∈ ts, now - t < cfg.rateLimit.window) :
    ((RateLimiter.isAllowed st0 now key cfg).1 = true ↔
      (((mapGet st0.requestCounts key).getD []).filter
        (fun t => now - t < cfg.rateLimit.window)).length < cfg.rateLimit.requests) ∧
    (∀ b ∈ (runCalls key cfg emptyRL ts).1, b = true) ∧
    (RateLimiter.isAllowed (runCalls key cfg emptyRL ts).2 now key cfg).1 = false ∧
    0 < RateLimiter.getRetryAfter
        (RateLimiter.isAllowed (runCalls key cfg emptyRL ts).2 now key cfg).2 now key cfg ∧
    RateLimiter.getRetryAfter
        (RateLimiter.isAllowed (runCalls key cfg emptyRL ts).2 now key cfg).2 now key cfg ≤
      cfg.rateLimit.window ∧
    (cfg.rateLimit.window ≤ now2 - minList ts →
      (RateLimiter.isAllowed
        (RateLimiter.isAllowed (runCalls key cfg emptyRL ts).2 now key cfg).2
        now2 key cfg).1 = true) := by
  have hiff := RateLimiter.isAllowed_iff_lt st0 now key cfg hcons hpos
  obtain ⟨hall, hrc, hlim⟩ := RateLimiter.runCalls_admits key cfg ts emptyRL []
    rfl (fun _ => rfl)
    (by simpa using Nat.le_of_eq hlen)
    (fun u _ t ht => absurd ht (List.not_mem_nil t))
    (fun u hu u' hu' => by
      have h1 := hwin u' hu'
      have h2 := hle u hu
      omega)
  rw [List.nil_append] at hrc hlim
  have htsne : ts ≠ [] := by
    intro h
    rw [h] at hlen
    simp only [List.length_nil] at hlen
    omega
  have hsome : (mapGet (runCalls key cfg emptyRL ts).2.limits key).isSome = true := by
    rcases hmg : mapGet (runCalls key cfg emptyRL ts).2.limits key with _ | li
    · exact absurd (hlim hmg) htsne
    · rfl
  have hmem := minList_mem ts htsne
  have hminle : minList ts ≤ now := hle _ hmem
  have hminwin : now - minList ts < cfg.rateLimit.window := hwin _ hmem
  have hwpos : 0 < cfg.rateLimit.window := by omega
  obtain ⟨hfalse, hrc2, hsome2⟩ := RateLimiter.isAllowed_step_false
    (runCalls key cfg emptyRL ts).2 now key cfg ts hrc hsome hwin (by omega)
  have hra := RateLimiter.getRetryAfter_full
    (RateLimiter.isAllowed (runCalls key cfg emptyRL ts).2 now key cfg).2
    now key cfg ts hrc2 (by omega)
  refine ⟨hiff, hall, hfalse, ?_, ?_, ?_⟩
  · rw [hra]
    exact lt_max_iff.mpr (Or.inr (by omega))
  · rw [hra]
    exact max_le (le_of_lt hwpos) (by omega)
  · intro h2
    have hcons2 : mapGet
        (RateLimiter.isAllowed (runCalls key cfg emptyRL ts).2 now key cfg).2.limits key
          = none →
        (mapGet (RateLimiter.isAllowed
          (runCalls key cfg emptyRL ts).2 now key cfg).2.requestCounts key).getD []
          = [] := by
      intro hn
      rw [hn] at hsome2
      simp at hsome2
    rw [RateLimiter.isAllowed_iff_lt _ now2 key cfg hcons2 hpos, hrc2,
      Option.getD_some, ← hlen]
    exact length_filter_lt_of_mem ts _ (minList ts) hmem (by simp; omega)

/-- Witness for `c1_sliding_window`: three admitted calls at times 0, 1, 2
with `maxRequests = 3`, `windowMillis = 1000`; the fourth call at time 3 is
denied and a call at time 1000 is admitted again. -/
theorem c1_sliding_window_witness :
    (RateLimiter.isAllowed
      (runCalls "k" { rateLimit := ⟨3, 1000⟩ } emptyRL [0, 1, 2]).2
      3 "k" { rateLimit := ⟨3, 1000⟩ }).1 = false ∧
    (RateLimiter.isAllowed
      (RateLimiter.isAllowed
        (runCalls "k" { rateLimit := ⟨3, 1000⟩ } emptyRL [0, 1, 2]).2
        3 "k" { rateLimit := ⟨3, 1000⟩ }).2
      1000 "k" { rateLimit := ⟨3, 1000⟩ }).1 = true :=
  ⟨(c1_sliding_window "k" { rateLimit := ⟨3, 1000⟩ } emptyRL [0, 1, 2] 3 1000
      (by decide) (by decide) (by decide) (by decide) (by decide)).2.2.1,
   (c1_sliding_window "k" { rateLimit := ⟨3, 1000⟩ } emptyRL [0, 1, 2] 3 1000
      (by decide) (by decide) (by decide) (by decide) (by decide)).2.2.2.2.2
     (by decide)⟩

/-- Witness for `c4_amended` at a concrete input. -/
theorem c4_amended_witness :
    (RateLimiter.isAllowed emptyRL 0 "k" { rateLimit := ⟨5, 1000⟩ }).1 = true ∧
    RateLimiter.getRemainingRequests
        (RateLimiter.recordRequest
          (RateLimiter.isAllowed emptyRL 0 "k" { rateLimit := ⟨5, 1000⟩ }).2 0 "k") "k" =
      (5 : Int) - 1 - 1 := by
  refine ⟨by decide, ?_⟩
  have h := c4_amended emptyRL 0 0 "k" { rateLimit := ⟨5, 1000⟩ } (by decide)
  rw [h.1]
  decide

/-! ## C2: fallback dispatch order and first-success -/

/-- C2 (confirmed): with the configured order `[lyricsOvh, musixmatch,
lyricsApi]`, if `lyricsOvh` is denied by the rate limiter and `musixmatch`'s
adapter returns a populated result `r`, then `getLyrics` returns `r`
immediately: the error list holds exactly the `lyricsOvh` entry with message
`"Rate limit exceeded"` and a `retryAfter` (so no error for the untried
`lyricsApi`), and `recordRequest` has been applied for `musixmatch` only. -/
theorem c2_fallback_first_success (oracle : String → Outcome LyricsResult)
    (now : Int) (ps : ProcessState) (r : LyricsResult)
    (h1 : (RateLimiter.isAllowed ps.rl now "lyrics_lyricsOvh"
      (FREE_API_CONFIGS.lyrics "lyricsOvh")).1 = false)
    (h2 : (RateLimiter.isAllowed
      (RateLimiter.isAllowed ps.rl now "lyrics_lyricsOvh"
        (FREE_API_CONFIGS.lyrics "lyricsOvh")).2
      now "lyrics_musixmatch" (FREE_API_CONFIGS.lyrics "musixmatch")).1 = true)
    (h3 : oracle "musixmatch" = .ok (some r))
    (h4 : (jsTrim r.lyrics).length > 0) :
    FreeLyricsService.getLyrics oracle now ps =
      (some r,
       { ps with
          rl := RateLimiter.recordRequest
            (RateLimiter.isAllowed
              (RateLimiter.isAllowed ps.rl now "lyrics_lyricsOvh"
                (FREE_API_CONFIGS.lyrics "lyricsOvh")).2
              now "lyrics_musixmatch" (FREE_API_CONFIGS.lyrics "musixmatch")).2
            now "lyrics_musixmatch"
          lyricsErrors := [⟨"lyricsOvh", "Rate limit exceeded", none,
            some (RateLimiter.getRetryAfter
              (RateLimiter.isAllowed ps.rl now "lyrics_lyricsOvh"
                (FREE_API_CONFIGS.lyrics "lyricsOvh")).2
              now "lyrics_lyricsOvh" (FREE_API_CONFIGS.lyrics "lyricsOvh"))⟩] }) := by
  have e1 : "lyrics_" ++ "lyricsOvh" = "lyrics_lyricsOvh" := rfl
  have e2 : "lyrics_" ++ "musixmatch" = "lyrics_musixmatch" := rfl
  unfold FreeLyricsService.getLyrics FreeLyricsService.services
  simp only [FreeLyricsService.getLyricsLoop, e1, e2, h1, h2, h3, h4, if_true,
    if_false, List.nil_append]
  simp [h4]

/-- Concrete setting for the `c2` witness: the `lyricsOvh` window is
saturated with 1000 timestamps at time 0, musixmatch's adapter answers. -/
def c2wPS : ProcessState :=
  ⟨⟨[("lyrics_lyricsOvh", ⟨0, 0, 0⟩)], [("lyrics_lyricsOvh", List.replicate 1000 0)]⟩,
   [], [], []⟩

def c2wOracle : String → Outcome LyricsResult := fun svc =>
  if svc = "musixmatch" then .ok (some ⟨"some words", "T", "A", "Musixmatch"⟩)
  else .ok none

def c2wR : LyricsResult := ⟨"some words", "T", "A", "Musixmatch"⟩

/-- Frame property: `isAllowed` only touches its own key's bindings. -/
theorem isAllowed_frame (st : RateLimiterState) (now : Int) (key : String)
    (cfg : ServiceConfig) (k' : String) (h : k' ≠ key) :
    mapGet (RateLimiter.isAllowed st now key cfg).2.limits k' = mapGet st.limits k' ∧
    mapGet (RateLimiter.isAllowed st now key cfg).2.requestCounts k' =
      mapGet st.requestCounts k' := by
  rcases hli : mapGet st.limits key with _ | li
  · rw [RateLimiter.isAllowed_eq_none st now key cfg hli]
    by_cases hc : cfg.rateLimit.requests = 0 <;>
      simp [hc, mapGet_mapSet_ne _ _ _ _ h]
  · rw [RateLimiter.isAllowed_eq_some st now key cfg li hli]
    by_cases hc : cfg.rateLimit.requests ≤
        (((mapGet st.requestCounts key).getD []).filter
          (fun t => now - t < cfg.rateLimit.window)).length <;>
      simp [hc, mapGet_mapSet_ne _ _ _ _ h]

theorem foldl_min_replicate (n : Nat) (x : Int) :
    (List.replicate n x).foldl min x = x := by
  induction n with
  | zero => rfl
  | succ n ih => simp [List.replicate_succ, min_self, ih]

theorem minList_replicate_succ (n : Nat) (x : Int) :
    minList (List.replicate (n + 1) x) = x := by
  simp [List.replicate_succ, minList, foldl_min_replicate]

/-- Witness for `c2_fallback_first_success`. -/
theorem c2_fallback_first_success_witness :
    (FreeLyricsService.getLyrics c2wOracle 0 c2wPS).1 = some c2wR ∧
    (FreeLyricsService.getLyrics c2wOracle 0 c2wPS).2.lyricsErrors =
      [⟨"lyricsOvh", "Rate limit exceeded", none, some 86400000⟩] := by
  have hwin : ∀ t ∈ List.replicate 1000 (0 : Int),
      (0 : Int) - t < (FREE_API_CONFIGS.lyrics "lyricsOvh").rateLimit.window := by
    intro t ht
    rw [List.eq_of_mem_replicate ht]
    decide
  obtain ⟨h1, hrc2, _⟩ := RateLimiter.isAllowed_step_false c2wPS.rl 0
    "lyrics_lyricsOvh" (FREE_API_CONFIGS.lyrics "lyricsOvh")
    (List.replicate 1000 0) rfl rfl hwin (by rw [List.length_replicate]; decide)
  have hmmnone : mapGet (RateLimiter.isAllowed c2wPS.rl 0 "lyrics_lyricsOvh"
      (FREE_API_CONFIGS.lyrics "lyricsOvh")).2.limits "lyrics_musixmatch" = none := by
    rw [(isAllowed_frame c2wPS.rl 0 "lyrics_lyricsOvh"
      (FREE_API_CONFIGS.lyrics "lyricsOvh") "lyrics_musixmatch" (by decide)).1]
    rfl
  have h2 : (RateLimiter.isAllowed
      (RateLimiter.isAllowed c2wPS.rl 0 "lyrics_lyricsOvh"
        (FREE_API_CONFIGS.lyrics "lyricsOvh")).2
      0 "lyrics_musixmatch" (FREE_API_CONFIGS.lyrics "musixmatch")).1 = true := by
    rw [RateLimiter.isAllowed_eq_none _ _ _ _ hmmnone, if_neg
      (by decide : ¬ (FREE_API_CONFIGS.lyrics "musixmatch").rateLimit.requests = 0)]
  have h := c2_fallback_first_success c2wOracle 0 c2wPS c2wR h1 h2 rfl (by decide)
  rw [h]
  refine ⟨rfl, ?_⟩
  have hra := RateLimiter.getRetryAfter_full
    (RateLimiter.isAllowed c2wPS.rl 0 "lyrics_lyricsOvh"
      (FREE_API_CONFIGS.lyrics "lyricsOvh")).2
    0 "lyrics_lyricsOvh" (FREE_API_CONFIGS.lyrics "lyricsOvh")
    (List.replicate 1000 0) hrc2 (by rw [List.length_replicate]; decide)
  dsimp only
  rw [hra, show List.replicate 1000 (0 : Int) = List.replicate (999 + 1) 0 from rfl,
    minList_replicate_succ]
  decide

/-! ## C6: the winning provider's source tag -/

def c6Oracle : Nat → String → Outcome TranslationResult := fun _ svc =>
  if svc = "myMemory" then .ok (some ⟨"hola", "en", "es", "MyMemory"⟩) else .ok none

/-- Counterexample to C6 (claimed: a successful translation stage result
carries the specific winning provider in `source`).  Here the `myMemory`
provider produces the translation — its adapter result is tagged
`"MyMemory"` — yet `translateText` returns `source = "Combined"`, which
names no provider. -/
theorem c6_counterexample :
    (FreeTranslationService.translateText c6Oracle 0 emptyPS "hello" "es" "auto").1 =
      .ok (some ⟨"hola", "en", "es", "Combined"⟩) ∧
    c6Oracle 0 "myMemory" = .ok (some ⟨"hola", "en", "es", "MyMemory"⟩) ∧
    ("Combined" : String) ≠ "MyMemory" := by
  refine ⟨rfl, rfl, by decide⟩

/-- C6 (amended): the per-adapter results are tagged with the winning
provider's name (shown here for the Lyrics.ovh adapter), but the translation
stage's assembled `TranslationResult` always carries `source = "Combined"`
when populated — the per-chunk provider tags are discarded. -/
theorem c6_amended :
    (∀ (oracle : Nat → String → Outcome TranslationResult) (now : Int)
        (ps : ProcessState) (text targetLanguage sourceLanguage : String)
        (r : TranslationResult) (ps' : ProcessState),
      FreeTranslationService.translateText oracle now ps text targetLanguage
          sourceLanguage = (.ok (some r), ps') →
        r.source = "Combined") ∧
    (∀ (response : HttpResponse) (data : LyricsOvhResponse)
        (artist title : String) (r : LyricsResult),
      getLyricsFromOvh response data artist title = .ok (some r) →
        r.source = "Lyrics.ovh") := by
  constructor
  · intro oracle now ps text tgt src r ps' h
    unfold FreeTranslationService.translateText at h
    by_cases hs : FreeTranslationService.isSupportedLanguage tgt = false
    · rw [if_pos hs] at h
      simp at h
    · rw [if_neg hs] at h
      rcases he : FreeTranslationService.translateChunks oracle now
          (FreeTranslationService.splitTextIntoChunks text 1000) 0 src
          ps.rl [] with ⟨o, st2, errs2⟩
      rw [he] at h
      rcases o with _ | p
      · simp at h
      · rcases p with ⟨chs, fs⟩
        dsimp only at h
        by_cases hz : chs.length = 0
        · rw [if_pos hz] at h
          simp at h
        · rw [if_neg hz] at h
          simp only [Prod.mk.injEq, Except.ok.injEq, Option.some.injEq] at h
          rw [← h.1]
          simp only []
          rw [if_pos (Nat.pos_of_ne_zero hz)]
  · intro response data artist title r h
    unfold getLyricsFromOvh at h
    by_cases hok : response.ok = false
    · rw [if_pos hok] at h
      by_cases h4 : response.status = 404
      · rw [if_pos h4] at h
        simp at h
      · rw [if_neg h4] at h
        simp at h
    · rw [if_neg hok] at h
      by_cases hmiss : (strTruthy data.lyrics = false || strTruthy data.error) = true
      · rw [if_pos hmiss] at h
        simp at h
      · rw [if_neg hmiss] at h
        simp only [Except.ok.injEq, Option.some.injEq] at h
        rw [← h]

/-- Witness for `c6_amended`. -/
theorem c6_amended_witness :
    (⟨"hola", "en", "es", "Combined"⟩ : TranslationResult).source = "Combined" ∧
    (⟨"words", "T", "A", "Lyrics.ovh"⟩ : LyricsResult).source = "Lyrics.ovh" :=
  ⟨c6_amended.1 c6Oracle 0 emptyPS "hello" "es" "auto" ⟨"hola", "en", "es", "Combined"⟩
      _ rfl,
   c6_amended.2 ⟨true, 200⟩ ⟨some "words", none⟩ "A" "T" ⟨"words", "T", "A", "Lyrics.ovh"⟩
      rfl⟩

/-! ## C7: `healthCheck` observes — and mutates — the rate limiter -/

/-- Counterexample to C7 (claimed: `healthCheck` leaves every provider
key's counters and timestamp windows unchanged).  On a fresh rate limiter,
`healthCheck` books a slot for the first admissible provider of each
category: afterwards `lyrics_lyricsOvh` has a recorded timestamp, so the
state is not the one we started from. -/
theorem c7_counterexample :
    (LyricsTranslatorService.healthCheck 0 emptyRL).2 ≠ emptyRL ∧
    mapGet (LyricsTranslatorService.healthCheck 0 emptyRL).2.requestCounts
      "lyrics_lyricsOvh" = some [0] := by
  refine ⟨by decide, by decide⟩

/-- C7 (amended): `healthCheck` classifies exactly as specified —
`healthy` iff all 3 categories have an admissible provider, `unhealthy` iff
none does, `degraded` otherwise — and performs no network calls, but it is
not a pure observation: each category probe runs `isAllowed`, which mutates
the rate limiter (initializing unseen keys and booking a slot for the first
admissible provider of the category). -/
theorem c7_amended (now : Int) (st : RateLimiterState) :
    ((LyricsTranslatorService.healthCheck now st).1.status = "healthy" ↔
      ((LyricsTranslatorService.healthCheck now st).1.audioRecognitionAvailable = true ∧
       (LyricsTranslatorService.healthCheck now st).1.lyricsAvailable = true ∧
       (LyricsTranslatorService.healthCheck now st).1.translationAvailable = true)) ∧
    ((LyricsTranslatorService.healthCheck now st).1.status = "unhealthy" ↔
      ((LyricsTranslatorService.healthCheck now st).1.audioRecognitionAvailable = false ∧
       (LyricsTranslatorService.healthCheck now st).1.lyricsAvailable = false ∧
       (LyricsTranslatorService.healthCheck now st).1.translationAvailable = false)) ∧
    ((LyricsTranslatorService.healthCheck now st).1.status = "degraded" ↔
      (¬ ((LyricsTranslatorService.healthCheck now st).1.status = "healthy") ∧
       ¬ ((LyricsTranslatorService.healthCheck now st).1.status = "unhealthy"))) := by
  rcases hA : FreeAudioRecognitionService.hasAvailableService now st with ⟨a, st1⟩
  rcases hL : FreeLyricsService.hasAvailableService now st1 with ⟨l, st2⟩
  rcases hT : FreeTranslationService.hasAvailableService now st2 with ⟨t, st3⟩
  simp only [LyricsTranslatorService.healthCheck, hA, hL, hT]
  rcases a <;> rcases l <;> rcases t <;> simp

/-- Witness for `c7_amended`. -/
theorem c7_amended_witness :
    ((LyricsTranslatorService.healthCheck 0 emptyRL).1.status = "healthy" ↔
      ((LyricsTranslatorService.healthCheck 0 emptyRL).1.audioRecognitionAvailable = true ∧
       (LyricsTranslatorService.healthCheck 0 emptyRL).1.lyricsAvailable = true ∧
       (LyricsTranslatorService.healthCheck 0 emptyRL).1.translationAvailable = true)) :=
  (c7_amended 0 emptyRL).1

/-! ## C8: the stage retry wrappers retry on clean nulls too -/

def c8Lyr : Nat → String → Outcome LyricsResult := fun attempt svc =>
  if attempt = 0 then .ok none
  else if svc = "lyricsOvh" then .ok (some ⟨"la la", "T", "A", "Lyrics.ovh"⟩)
  else .ok none

/-- Counterexample to C8 (claimed: a second attempt of a stage occurs
only when the previous attempt threw — a clean null is not retried).  Here
attempt 0 of the lyrics stage completes cleanly with a `null` result and an
empty error list (nothing threw), yet `getLyricsWithRetry` returns the
result of attempt 1: a second attempt did occur after a clean "not found". -/
theorem c8_counterexample :
    (FreeLyricsService.getLyrics (c8Lyr 0) 0 emptyPS).1 = none ∧
    (FreeLyricsService.getLyrics (c8Lyr 0) 0 emptyPS).2.lyricsErrors = [] ∧
    (LyricsTranslatorService.getLyricsWithRetry c8Lyr 0 emptyPS).1 =
      some ⟨"la la", "T", "A", "Lyrics.ovh"⟩ := by
  refine ⟨rfl, rfl, by decide⟩

/-- C8 (amended): each stage wrapper performs at most `maxRetries = 2`
attempts; a populated first attempt returns immediately (no second attempt),
but a second attempt occurs whenever the first produces no populated result
— after a thrown adapter error, after a clean null, and (for the lyrics
wrapper) after a blank-lyrics result alike. -/
theorem c8_amended (oraclesL : Nat → String → Outcome LyricsResult)
    (oraclesR : Nat → String → Outcome AudioRecognitionResult)
    (now : Int) (ps : ProcessState) :
    (∀ r, (FreeLyricsService.getLyrics (oraclesL 0) now ps).1 = some r →
      (jsTrim r.lyrics).length > 0 →
      LyricsTranslatorService.getLyricsWithRetry oraclesL now ps =
        (some r, (FreeLyricsService.getLyrics (oraclesL 0) now ps).2)) ∧
    ((FreeLyricsService.getLyrics (oraclesL 0) now ps).1 = none →
      LyricsTranslatorService.getLyricsWithRetry oraclesL now ps =
        LyricsTranslatorService.lyricsRetryLoop oraclesL now 1 1
          (FreeLyricsService.getLyrics (oraclesL 0) now ps).2) ∧
    (∀ r, (FreeAudioRecognitionService.recognizeAudio (oraclesR 0) now ps).1 = some r →
      LyricsTranslatorService.recognizeAudioWithRetry oraclesR now ps =
        (some r, (FreeAudioRecognitionService.recognizeAudio (oraclesR 0) now ps).2)) ∧
    ((FreeAudioRecognitionService.recognizeAudio (oraclesR 0) now ps).1 = none →
      LyricsTranslatorService.recognizeAudioWithRetry oraclesR now ps =
        LyricsTranslatorService.recognizeRetryLoop oraclesR now 1 1
          (FreeAudioRecognitionService.recognizeAudio (oraclesR 0) now ps).2) := by
  refine ⟨?_, ?_, ?_, ?_⟩
  · intro r hr hpop
    show LyricsTranslatorService.lyricsRetryLoop oraclesL now 2 0 ps = _
    show LyricsTranslatorService.lyricsRetryLoop oraclesL now (1 + 1) 0 ps = _
    simp only [LyricsTranslatorService.lyricsRetryLoop, hr, hpop, if_pos]
  · intro hr
    show LyricsTranslatorService.lyricsRetryLoop oraclesL now (1 + 1) 0 ps = _
    simp only [LyricsTranslatorService.lyricsRetryLoop, hr]
  · intro r hr
    show LyricsTranslatorService.recognizeRetryLoop oraclesR now (1 + 1) 0 ps = _
    simp only [LyricsTranslatorService.recognizeRetryLoop, hr]
  · intro hr
    show LyricsTranslatorService.recognizeRetryLoop oraclesR now (1 + 1) 0 ps = _
    simp only [LyricsTranslatorService.recognizeRetryLoop, hr]

def c8bLyr : Nat → String → Outcome LyricsResult := fun _ svc =>
  if svc = "lyricsOvh" then .ok (some ⟨"la la", "T", "A", "Lyrics.ovh"⟩) else .ok none

/-- Witness for `c8_amended`. -/
theorem c8_amended_witness :
    LyricsTranslatorService.getLyricsWithRetry c8bLyr 0 emptyPS =
      (some ⟨"la la", "T", "A", "Lyrics.ovh"⟩,
       (FreeLyricsService.getLyrics (c8bLyr 0) 0 emptyPS).2) :=
  (c8_amended c8bLyr (fun _ _ => .ok none) 0 emptyPS).1
    ⟨"la la", "T", "A", "Lyrics.ovh"⟩ rfl (by decide)

/-! ## C10: unsupported target language at the public interface -/

/-- Guard behavior: `translateText` throws before consulting any provider when the target
language is unsupported; only the `this.errors = []` reset has happened. -/
theorem translateText_unsupported (oracle : Nat → String → Outcome TranslationResult)
    (now : Int) (ps : ProcessState) (text targetLanguage sourceLanguage : String)
    (h : FreeTranslationService.isSupportedLanguage targetLanguage = false) :
    FreeTranslationService.translateText oracle now ps text targetLanguage
        sourceLanguage =
      (.error ("Unsupported target language: " ++ targetLanguage),
       { ps with translationErrors := [] }) := by
  unfold FreeTranslationService.translateText
  rw [if_pos h]

/-- C10 (confirmed): for a target language not in the supported list,
`translateLyricsOnly` returns normally with `translation` absent, exactly
one stage-level error, the `lyrics` field populated from the caller's input
with `source = "Manual"` — and the rate limiter untouched, because
`translateText` throws before consulting any provider, so no quota is
consumed. -/
theorem c10_unsupported_language
    (oracles : Nat → Nat → String → Outcome TranslationResult) (now : Int)
    (ps : ProcessState) (lyricsText targetLanguage : String)
    (sourceLanguage : Option String) (songInfo : Option SongInfo)
    (hunsup : FreeTranslationService.isSupportedLanguage targetLanguage = false) :
    (LyricsTranslatorService.translateLyricsOnly oracles now ps lyricsText
        targetLanguage sourceLanguage songInfo).1.translation = none ∧
    (LyricsTranslatorService.translateLyricsOnly oracles now ps lyricsText
        targetLanguage sourceLanguage songInfo).1.errors =
      [⟨"translation", "Failed to translate lyrics from all available services",
        none, none⟩] ∧
    (LyricsTranslatorService.translateLyricsOnly oracles now ps lyricsText
        targetLanguage sourceLanguage songInfo).1.lyrics =
      some ⟨lyricsText,
        (match songInfo with
         | some si => if si.title = "" then "Unknown Title" else si.title
         | none => "Unknown Title"),
        (match songInfo with
         | some si => if si.artist = "" then "Unknown Artist" else si.artist
         | none => "Unknown Artist"),
        "Manual"⟩ ∧
    (LyricsTranslatorService.translateLyricsOnly oracles now ps lyricsText
        targetLanguage sourceLanguage songInfo).2.rl = ps.rl := by
  have h0 := translateText_unsupported (oracles 0) now ps lyricsText targetLanguage
    (sourceLanguage.getD "auto") hunsup
  have h1 := translateText_unsupported (oracles 1) now
    ({ ps with translationErrors := [] }) lyricsText targetLanguage
    (sourceLanguage.getD "auto") hunsup
  have hloop : LyricsTranslatorService.translateWithRetry oracles now lyricsText
      targetLanguage (sourceLanguage.getD "auto") ps =
      (none, { ps with translationErrors := [] }) := by
    unfold LyricsTranslatorService.translateWithRetry
    show LyricsTranslatorService.translateRetryLoop oracles now lyricsText
      targetLanguage (sourceLanguage.getD "auto") (1 + 1) 0 ps = _
    simp only [LyricsTranslatorService.translateRetryLoop, h0, h1]
  unfold LyricsTranslatorService.translateLyricsOnly
  rw [hloop]
  exact ⟨rfl, rfl, rfl, rfl⟩

/-- Witness for `c10_unsupported_language` ("xx" is not a supported code). -/
theorem c10_unsupported_language_witness :
    (LyricsTranslatorService.translateLyricsOnly (fun _ _ _ => .ok none) 0 emptyPS
        "hello" "xx" none none).1.translation = none ∧
    (LyricsTranslatorService.translateLyricsOnly (fun _ _ _ => .ok none) 0 emptyPS
        "hello" "xx" none none).1.lyrics =
      some ⟨"hello", "Unknown Title", "Unknown Artist", "Manual"⟩ ∧
    (LyricsTranslatorService.translateLyricsOnly (fun _ _ _ => .ok none) 0 emptyPS
        "hello" "xx" none none).2.rl = emptyPS.rl := by
  have h := c10_unsupported_language (fun _ _ _ => .ok none) 0 emptyPS
    "hello" "xx" none none (by decide)
  exact ⟨h.1, h.2.2.1, h.2.2.2⟩

/-! ## C3: no exception escapes the public entry points -/

/-- After the recognition step, the remaining pipeline yields a populated
`translation` exactly when the error list stays empty. -/
theorem pipelineAfterRecognition_err (env : PipelineEnv) (now : Int)
    (options : TranslationOptions) (ar : Option AudioRecognitionResult)
    (ps : ProcessState) :
    ((LyricsTranslatorService.pipelineAfterRecognition env now options ar ps).1.translation
        = none ↔
      (LyricsTranslatorService.pipelineAfterRecognition env now options ar ps).1.errors
        ≠ []) := by
  unfold LyricsTranslatorService.pipelineAfterRecognition
  by_cases hsi : (options.manualSongInfo.getD
      { artist := (ar.bind (·.artist)).getD "",
        title := (ar.bind (·.title)).getD "" }).artist = "" ∨
      (options.manualSongInfo.getD
        { artist := (ar.bind (·.artist)).getD "",
          title := (ar.bind (·.title)).getD "" }).title = ""
  · rw [if_pos hsi]
    simp
  · rw [if_neg hsi]
    rcases hG : LyricsTranslatorService.getLyricsWithRetry env.lyr now ps with ⟨oly, ps2⟩
    rcases oly with _ | ly
    · simp
    · dsimp only
      rcases hT : LyricsTranslatorService.translateWithRetry env.trans now ly.lyrics
          options.targetLanguage (options.sourceLanguage.getD "auto") ps2 with ⟨otr, ps3⟩
      rcases otr with _ | tr <;> simp

theorem translateFromAudio_err (env : PipelineEnv) (now : Int) (ps : ProcessState)
    (options : TranslationOptions) :
    ((LyricsTranslatorService.translateFromAudio env now ps options).1.translation
        = none ↔
      (LyricsTranslatorService.translateFromAudio env now ps options).1.errors ≠ []) := by
  unfold LyricsTranslatorService.translateFromAudio
  by_cases hskip : options.skipAudioRecognition = false ∧ options.manualSongInfo = none
  · rw [if_pos hskip]
    rcases hR : LyricsTranslatorService.recognizeAudioWithRetry env.recog now ps
      with ⟨orc, ps1⟩
    rcases orc with _ | arr
    · simp
    · exact pipelineAfterRecognition_err env now options (some arr) ps1
  · rw [if_neg hskip]
    exact pipelineAfterRecognition_err env now options none ps

theorem translateLyricsOnly_err
    (oracles : Nat → Nat → String → Outcome TranslationResult) (now : Int)
    (ps : ProcessState) (lyricsText targetLanguage : String)
    (sourceLanguage : Option String) (songInfo : Option SongInfo) :
    ((LyricsTranslatorService.translateLyricsOnly oracles now ps lyricsText
        targetLanguage sourceLanguage songInfo).1.translation = none ↔
      (LyricsTranslatorService.translateLyricsOnly oracles now ps lyricsText
        targetLanguage sourceLanguage songInfo).1.errors ≠ []) := by
  unfold LyricsTranslatorService.translateLyricsOnly
  rcases hT : LyricsTranslatorService.translateWithRetry oracles now lyricsText
      targetLanguage (sourceLanguage.getD "auto") ps with ⟨otr, ps'⟩
  rcases otr with _ | tr <;> simp

theorem translateFromSongInfo_err (env : PipelineEnv) (now : Int) (ps : ProcessState)
    (artist title targetLanguage : String) (sourceLanguage : Option String) :
    ((LyricsTranslatorService.translateFromSongInfo env now ps artist title
        targetLanguage sourceLanguage).1.translation = none ↔
      (LyricsTranslatorService.translateFromSongInfo env now ps artist title
        targetLanguage sourceLanguage).1.errors ≠ []) := by
  unfold LyricsTranslatorService.translateFromSongInfo
  exact translateFromAudio_err env now ps _

theorem batchTranslate_err (now : Int) :
    ∀ (requests : List BatchRequest) (benv : Nat → PipelineEnv) (ps : ProcessState),
    ∀ out ∈ (LyricsTranslatorService.batchTranslate benv now ps requests).1,
      (out.translation = none ↔ out.errors ≠ []) := by
  intro requests
  induction requests with
  | nil =>
    intro benv ps out hmem
    simp [LyricsTranslatorService.batchTranslate] at hmem
  | cons req rest ih =>
    intro benv ps out hmem
    simp only [LyricsTranslatorService.batchTranslate] at hmem
    rcases List.mem_cons.mp hmem with h | h
    · rw [h]
      exact translateFromSongInfo_err (benv 0) now ps req.artist req.title
        req.targetLanguage req.sourceLanguage
    · exact ih (fun i => benv (i + 1)) _ out h

/-- C3 (confirmed): every public entry point returns normally (the model
functions are total: every throw inside — adapter rejections, the
unsupported-language throw — is consumed by a `catch` on its path), and the
returned outcome's `errors` array is non-empty exactly when the pipeline
failed to produce its final `translation`; for `batchTranslate` this holds
for every outcome in the returned list. -/
theorem c3_no_escape (env : PipelineEnv) (benv : Nat → PipelineEnv) (now : Int)
    (ps : ProcessState) (options : TranslationOptions)
    (artist title targetLanguage lyricsText : String) (sourceLanguage : Option String)
    (oracles : Nat → Nat → String → Outcome TranslationResult)
    (songInfo : Option SongInfo) (requests : List BatchRequest) :
    ((LyricsTranslatorService.translateFromAudio env now ps options).1.translation
        = none ↔
      (LyricsTranslatorService.translateFromAudio env now ps options).1.errors ≠ []) ∧
    ((LyricsTranslatorService.translateFromSongInfo env now ps artist title
        targetLanguage sourceLanguage).1.translation = none ↔
      (LyricsTranslatorService.translateFromSongInfo env now ps artist title
        targetLanguage sourceLanguage).1.errors ≠ []) ∧
    ((LyricsTranslatorService.translateLyricsOnly oracles now ps lyricsText
        targetLanguage sourceLanguage songInfo).1.translation = none ↔
      (LyricsTranslatorService.translateLyricsOnly oracles now ps lyricsText
        targetLanguage sourceLanguage songInfo).1.errors ≠ []) ∧
    (∀ out ∈ (LyricsTranslatorService.batchTranslate benv now ps requests).1,
      (out.translation = none ↔ out.errors ≠ [])) :=
  ⟨translateFromAudio_err env now ps options,
   translateFromSongInfo_err env now ps artist title targetLanguage sourceLanguage,
   translateLyricsOnly_err oracles now ps lyricsText targetLanguage sourceLanguage songInfo,
   batchTranslate_err now requests benv ps⟩

/-- Everything-misses network behavior, for witnesses. -/
def cEnvNull : PipelineEnv :=
  ⟨fun _ _ => .ok none, fun _ _ => .ok none, fun _ _ _ => .ok none⟩

/-- Witness for `c3_no_escape`: a batch item with an empty artist yields the
fatal missing-song-info outcome, whose `errors` list is non-empty and whose
`translation` is absent, in accordance with the theorem. -/
theorem c3_no_escape_witness :
    ((⟨none, none, none, [⟨"lyrics", "Missing artist or title information", none, none⟩],
        0, 0⟩ : LyricsTranslationPipeline).translation = none ↔
      (⟨none, none, none, [⟨"lyrics", "Missing artist or title information", none, none⟩],
        0, 0⟩ : LyricsTranslationPipeline).errors ≠ []) :=
  (c3_no_escape cEnvNull (fun _ => cEnvNull) 0 emptyPS
      { targetLanguage := "es" } "A" "T" "es" "hello" none (fun _ _ _ => .ok none) none
      [⟨"", "T", "es", none⟩]).2.2.2
    ⟨none, none, none, [⟨"lyrics", "Missing artist or title information", none, none⟩],
      0, 0⟩
    (by decide)

/-! ## C9: batch isolation -/

/-- A request with an empty artist or title is fatal for its own pipeline
run — it yields exactly the missing-song-info outcome — and leaves the
process state untouched (no provider consulted, no quota consumed). -/
theorem translateFromSongInfo_fatal (env : PipelineEnv) (now : Int)
    (ps : ProcessState) (artist title targetLanguage : String)
    (sourceLanguage : Option String) (hbad : artist = "" ∨ title = "") :
    LyricsTranslatorService.translateFromSongInfo env now ps artist title
        targetLanguage sourceLanguage =
      (⟨none, none, none,
        [⟨"lyrics", "Missing artist or title information", none, none⟩], 0, 0⟩, ps) := by
  unfold LyricsTranslatorService.translateFromSongInfo
    LyricsTranslatorService.translateFromAudio
  rw [if_neg (by simp)]
  unfold LyricsTranslatorService.pipelineAfterRecognition
  simp only [Option.getD_some]
  rw [if_pos hbad]

/-- C9 (confirmed): `batchTranslate` returns exactly one outcome per
request in input order, and a fatal item (empty artist or title) contributes
the missing-song-info outcome at its own position without disturbing the
rest: the requests before it are processed as usual, and the requests after
it are processed from exactly the state the prefix produced (the fatal item
neither stops the batch nor changes any shared state). -/
theorem c9_batch_isolation (now : Int) (badReq : BatchRequest)
    (hbad : badReq.artist = "" ∨ badReq.title = "") :
    (∀ (benv : Nat → PipelineEnv) (ps : ProcessState)
        (requests : List BatchRequest),
      (LyricsTranslatorService.batchTranslate benv now ps requests).1.length =
        requests.length) ∧
    (∀ (benv : Nat → PipelineEnv) (ps : ProcessState)
        (pre post : List BatchRequest),
      LyricsTranslatorService.batchTranslate benv now ps (pre ++ badReq :: post) =
        ((LyricsTranslatorService.batchTranslate benv now ps pre).1 ++
          (⟨none, none, none,
            [⟨"lyrics", "Missing artist or title information", none, none⟩], 0, 0⟩ :
              LyricsTranslationPipeline) ::
          (LyricsTranslatorService.batchTranslate (fun i => benv (i + pre.length + 1))
            now (LyricsTranslatorService.batchTranslate benv now ps pre).2 post).1,
         (LyricsTranslatorService.batchTranslate (fun i => benv (i + pre.length + 1))
            now (LyricsTranslatorService.batchTranslate benv now ps pre).2 post).2)) := by
  constructor
  · intro benv ps requests
    induction requests generalizing benv ps with
    | nil => rfl
    | cons req rest ih =>
      simp only [LyricsTranslatorService.batchTranslate, List.length_cons]
      rw [ih]
  · intro benv ps pre post
    induction pre generalizing benv ps with
    | nil =>
      simp only [List.nil_append, LyricsTranslatorService.batchTranslate]
      rw [translateFromSongInfo_fatal (benv 0) now ps badReq.artist badReq.title
        badReq.targetLanguage badReq.sourceLanguage hbad]
      have hsh : (fun i => benv (i + ([] : List BatchRequest).length + 1)) =
          (fun i => benv (i + 1)) := by
        funext i
        simp
      rw [hsh]
    | cons r pre' ih =>
      rw [List.cons_append]
      simp only [LyricsTranslatorService.batchTranslate]
      rw [ih (fun i => benv (i + 1))]
      have hsh : (fun i => benv (i + (r :: pre').length + 1)) =
          (fun i => (fun j => benv (j + 1)) (i + pre'.length + 1)) := by
        funext i
        simp only [List.length_cons]
        congr 1
      rw [hsh]
      simp [List.cons_append]

/-- Witness for `c9_batch_isolation`: a 3-item batch whose middle request
has an empty artist; the batch returns 3 outcomes and the middle one is the
fatal missing-song-info outcome. -/
theorem c9_batch_isolation_witness :
    (LyricsTranslatorService.batchTranslate (fun _ => cEnvNull) 0 emptyPS
      [⟨"A1", "T1", "es", none⟩, ⟨"", "T2", "es", none⟩,
       ⟨"A3", "T3", "es", none⟩]).1.length = 3 ∧
    (LyricsTranslatorService.batchTranslate (fun _ => cEnvNull) 0 emptyPS
      [⟨"A1", "T1", "es", none⟩, ⟨"", "T2", "es", none⟩,
       ⟨"A3", "T3", "es", none⟩]).1[1]? =
      some ⟨none, none, none,
        [⟨"lyrics", "Missing artist or title information", none, none⟩], 0, 0⟩ := by
  have h := c9_batch_isolation 0 ⟨"", "T2", "es", none⟩ (Or.inl rfl)
  exact ⟨h.1 (fun _ => cEnvNull) emptyPS _, by decide⟩

/-! ## C5: what shared state survives a pipeline run -/

def c5Env : Nat → Nat → String → Outcome TranslationResult := fun _ _ _ => .throws "boom"

/-- Counterexample to C5 (claimed: two consecutive pipeline invocations
share no mutable state other than the rate limiter).  A single
`translateLyricsOnly` run whose translation adapters all throw leaves the
translation service's `errors` array populated in the surviving process
state — `getAllErrors`, callable before the next run touches anything,
observes it — so a service error array, not just the rate limiter, survives
across pipeline runs. -/
theorem c5_counterexample :
    (LyricsTranslatorService.translateLyricsOnly c5Env 0 emptyPS "hello" "es"
      none none).2.translationErrors ≠ [] ∧
    getAllErrors (LyricsTranslatorService.translateLyricsOnly c5Env 0 emptyPS
      "hello" "es" none none).2 ≠ getAllErrors emptyPS := by
  refine ⟨by decide, by decide⟩

/-- The lyrics dispatcher reads only the rate-limiter component of the
process state. -/
theorem getLyrics_congr (oracle : String → Outcome LyricsResult) (now : Int)
    (ps ps' : ProcessState) (h : ps.rl = ps'.rl) :
    (FreeLyricsService.getLyrics oracle now ps).1 =
      (FreeLyricsService.getLyrics oracle now ps').1 ∧
    (FreeLyricsService.getLyrics oracle now ps).2.rl =
      (FreeLyricsService.getLyrics oracle now ps').2.rl ∧
    (FreeLyricsService.getLyrics oracle now ps).2.lyricsErrors =
      (FreeLyricsService.getLyrics oracle now ps').2.lyricsErrors := by
  refine ⟨?_, ?_, ?_⟩ <;> simp [FreeLyricsService.getLyrics, h]

theorem recognizeAudio_congr (oracle : String → Outcome AudioRecognitionResult)
    (now : Int) (ps ps' : ProcessState) (h : ps.rl = ps'.rl) :
    (FreeAudioRecognitionService.recognizeAudio oracle now ps).1 =
      (FreeAudioRecognitionService.recognizeAudio oracle now ps').1 ∧
    (FreeAudioRecognitionService.recognizeAudio oracle now ps).2.rl =
      (FreeAudioRecognitionService.recognizeAudio oracle now ps').2.rl := by
  refine ⟨?_, ?_⟩ <;> simp [FreeAudioRecognitionService.recognizeAudio, h]

theorem translateText_congr (oracle : Nat → String → Outcome TranslationResult)
    (now : Int) (ps ps' : ProcessState) (text tgt src : String) (h : ps.rl = ps'.rl) :
    (FreeTranslationService.translateText oracle now ps text tgt src).1 =
      (FreeTranslationService.translateText oracle now ps' text tgt src).1 ∧
    (FreeTranslationService.translateText oracle now ps text tgt src).2.rl =
      (FreeTranslationService.translateText oracle now ps' text tgt src).2.rl := by
  unfold FreeTranslationService.translateText
  by_cases hs : FreeTranslationService.isSupportedLanguage tgt = false
  · rw [if_pos hs, if_pos hs]
    exact ⟨rfl, h⟩
  · simp only [if_neg hs]
    rw [h]
    rcases hm : FreeTranslationService.translateChunks oracle now
        (FreeTranslationService.splitTextIntoChunks text 1000) 0 src ps'.rl []
      with ⟨o, st2, errs2⟩
    rcases o with _ | p
    · exact ⟨rfl, rfl⟩
    · rcases p with ⟨chs, fs⟩
      dsimp only
      by_cases hz : chs.length = 0
      · rw [if_pos hz, if_pos hz]
        exact ⟨rfl, rfl⟩
      · rw [if_neg hz, if_neg hz]
        exact ⟨rfl, rfl⟩

theorem lyricsRetryLoop_congr (oracles : Nat → String → Outcome LyricsResult)
    (now : Int) : ∀ (fuel attempt : Nat) (ps ps' : ProcessState), ps.rl = ps'.rl →
    (LyricsTranslatorService.lyricsRetryLoop oracles now fuel attempt ps).1 =
      (LyricsTranslatorService.lyricsRetryLoop oracles now fuel attempt ps').1 ∧
    (LyricsTranslatorService.lyricsRetryLoop oracles now fuel attempt ps).2.rl =
      (LyricsTranslatorService.lyricsRetryLoop oracles now fuel attempt ps').2.rl := by
  intro fuel
  induction fuel with
  | zero => intro attempt ps ps' h; exact ⟨rfl, h⟩
  | succ n ih =>
    intro attempt ps ps' h
    obtain ⟨e1, e2, _⟩ := getLyrics_congr (oracles attempt) now ps ps' h
    simp only [LyricsTranslatorService.lyricsRetryLoop]
    rcases hp : (FreeLyricsService.getLyrics (oracles attempt) now ps).1 with _ | r
    · rw [hp] at e1
      rw [← e1]
      exact ih (attempt + 1) _ _ e2
    · rw [hp] at e1
      rw [← e1]
      dsimp only
      by_cases hpop : (jsTrim r.lyrics).length > 0
      · rw [if_pos hpop, if_pos hpop]
        exact ⟨rfl, e2⟩
      · rw [if_neg hpop, if_neg hpop]
        exact ih (attempt + 1) _ _ e2

theorem recognizeRetryLoop_congr
    (oracles : Nat → String → Outcome AudioRecognitionResult) (now : Int) :
    ∀ (fuel attempt : Nat) (ps ps' : ProcessState), ps.rl = ps'.rl →
    (LyricsTranslatorService.recognizeRetryLoop oracles now fuel attempt ps).1 =
      (LyricsTranslatorService.recognizeRetryLoop oracles now fuel attempt ps').1 ∧
    (LyricsTranslatorService.recognizeRetryLoop oracles now fuel attempt ps).2.rl =
      (LyricsTranslatorService.recognizeRetryLoop oracles now fuel attempt ps').2.rl := by
  intro fuel
  induction fuel with
  | zero => intro attempt ps ps' h; exact ⟨rfl, h⟩
  | succ n ih =>
    intro attempt ps ps' h
    obtain ⟨e1, e2⟩ := recognizeAudio_congr (oracles attempt) now ps ps' h
    simp only [LyricsTranslatorService.recognizeRetryLoop]
    rcases hp : (FreeAudioRecognitionService.recognizeAudio (oracles attempt) now ps).1
      with _ | r
    · rw [hp] at e1
      rw [← e1]
      exact ih (attempt + 1) _ _ e2
    · rw [hp] at e1
      rw [← e1]
      exact ⟨rfl, e2⟩

theorem translateRetryLoop_congr
    (oracles : Nat → Nat → String → Outcome TranslationResult) (now : Int)
    (text tgt src : String) :
    ∀ (fuel attempt : Nat) (ps ps' : ProcessState), ps.rl = ps'.rl →
    (LyricsTranslatorService.translateRetryLoop oracles now text tgt src fuel
      attempt ps).1 =
      (LyricsTranslatorService.translateRetryLoop oracles now text tgt src fuel
        attempt ps').1 ∧
    (LyricsTranslatorService.translateRetryLoop oracles now text tgt src fuel
      attempt ps).2.rl =
      (LyricsTranslatorService.translateRetryLoop oracles now text tgt src fuel
        attempt ps').2.rl := by
  intro fuel
  induction fuel with
  | zero => intro attempt ps ps' h; exact ⟨rfl, h⟩
  | succ n ih =>
    intro attempt ps ps' h
    obtain ⟨e1, e2⟩ := translateText_congr (oracles attempt) now ps ps' text tgt src h
    simp only [LyricsTranslatorService.translateRetryLoop]
    rcases hA : FreeTranslationService.translateText (oracles attempt) now ps text tgt src
      with ⟨er, psA⟩
    rcases hB : FreeTranslationService.translateText (oracles attempt) now ps' text tgt src
      with ⟨er', psB⟩
    rw [hA, hB] at e1 e2
    dsimp only at e1 e2
    rw [← e1]
    rcases er with msg | o
    · exact ih (attempt + 1) _ _ e2
    · rcases o with _ | r
      · exact ih (attempt + 1) _ _ e2
      · dsimp only
        by_cases hpop : (jsTrim r.translatedText).length > 0
        · rw [if_pos hpop, if_pos hpop]
          exact ⟨rfl, e2⟩
        · rw [if_neg hpop, if_neg hpop]
          exact ih (attempt + 1) _ _ e2

theorem pipelineAfterRecognition_congr (env : PipelineEnv) (now : Int)
    (options : TranslationOptions) (ar : Option AudioRecognitionResult)
    (ps ps' : ProcessState) (h : ps.rl = ps'.rl) :
    (LyricsTranslatorService.pipelineAfterRecognition env now options ar ps).1 =
      (LyricsTranslatorService.pipelineAfterRecognition env now options ar ps').1 ∧
    (LyricsTranslatorService.pipelineAfterRecognition env now options ar ps).2.rl =
      (LyricsTranslatorService.pipelineAfterRecognition env now options ar ps').2.rl := by
  unfold LyricsTranslatorService.pipelineAfterRecognition
  by_cases hsi : (options.manualSongInfo.getD
      { artist := (ar.bind (·.artist)).getD "",
        title := (ar.bind (·.title)).getD "" }).artist = "" ∨
      (options.manualSongInfo.getD
        { artist := (ar.bind (·.artist)).getD "",
          title := (ar.bind (·.title)).getD "" }).title = ""
  · rw [if_pos hsi, if_pos hsi]
    exact ⟨rfl, h⟩
  · simp only [if_neg hsi]
    obtain ⟨e1, e2⟩ := lyricsRetryLoop_congr env.lyr now 2 0 ps ps' h
    rcases hA : LyricsTranslatorService.getLyricsWithRetry env.lyr now ps with ⟨oA, psA⟩
    rcases hB : LyricsTranslatorService.getLyricsWithRetry env.lyr now ps' with ⟨oB, psB⟩
    rw [show LyricsTranslatorService.getLyricsWithRetry env.lyr now ps =
        LyricsTranslatorService.lyricsRetryLoop env.lyr now 2 0 ps from rfl] at hA
    rw [show LyricsTranslatorService.getLyricsWithRetry env.lyr now ps' =
        LyricsTranslatorService.lyricsRetryLoop env.lyr now 2 0 ps' from rfl] at hB
    rw [hA, hB] at e1 e2
    dsimp only at e1 e2
    rw [← e1]
    rcases oA with _ | ly
    · exact ⟨rfl, e2⟩
    · dsimp only
      obtain ⟨f1, f2⟩ := translateRetryLoop_congr env.trans now ly.lyrics
        options.targetLanguage (options.sourceLanguage.getD "auto") 2 0 psA psB e2
      rcases hC : LyricsTranslatorService.translateWithRetry env.trans now ly.lyrics
          options.targetLanguage (options.sourceLanguage.getD "auto") psA with ⟨oC, psC⟩
      rcases hD : LyricsTranslatorService.translateWithRetry env.trans now ly.lyrics
          options.targetLanguage (options.sourceLanguage.getD "auto") psB with ⟨oD, psD⟩
      rw [show LyricsTranslatorService.translateWithRetry env.trans now ly.lyrics
          options.targetLanguage (options.sourceLanguage.getD "auto") psA =
          LyricsTranslatorService.translateRetryLoop env.trans now ly.lyrics
            options.targetLanguage (options.sourceLanguage.getD "auto") 2 0 psA
          from rfl] at hC
      rw [show LyricsTranslatorService.translateWithRetry env.trans now ly.lyrics
          options.targetLanguage (options.sourceLanguage.getD "auto") psB =
          LyricsTranslatorService.translateRetryLoop env.trans now ly.lyrics
            options.targetLanguage (options.sourceLanguage.getD "auto") 2 0 psB
          from rfl] at hD
      rw [hC, hD] at f1 f2
      dsimp only at f1 f2
      rw [← f1]
      rcases oC with _ | tr
      · exact ⟨rfl, f2⟩
      · exact ⟨rfl, f2⟩

/-- C5 (amended): the rate limiter is the only component of the shared
process state that influences pipeline behavior: two invocations whose
states agree on the rate limiter produce identical outcomes and identical
final rate-limiter states, whatever error arrays the services retained from
earlier runs.  Those retained arrays do survive across runs (see the
counterexample) but are reset at the start of each stage invocation and are
exposed only through `getErrors`/`getAllErrors`. -/
theorem c5_amended (env : PipelineEnv)
    (oracles : Nat → Nat → String → Outcome TranslationResult) (now : Int)
    (options : TranslationOptions) (lyricsText targetLanguage : String)
    (sourceLanguage : Option String) (songInfo : Option SongInfo)
    (ps ps' : ProcessState) (h : ps.rl = ps'.rl) :
    ((LyricsTranslatorService.translateFromAudio env now ps options).1 =
      (LyricsTranslatorService.translateFromAudio env now ps' options).1 ∧
     (LyricsTranslatorService.translateFromAudio env now ps options).2.rl =
      (LyricsTranslatorService.translateFromAudio env now ps' options).2.rl) ∧
    ((LyricsTranslatorService.translateLyricsOnly oracles now ps lyricsText
        targetLanguage sourceLanguage songInfo).1 =
      (LyricsTranslatorService.translateLyricsOnly oracles now ps' lyricsText
        targetLanguage sourceLanguage songInfo).1 ∧
     (LyricsTranslatorService.translateLyricsOnly oracles now ps lyricsText
        targetLanguage sourceLanguage songInfo).2.rl =
      (LyricsTranslatorService.translateLyricsOnly oracles now ps' lyricsText
        targetLanguage sourceLanguage songInfo).2.rl) := by
  constructor
  · unfold LyricsTranslatorService.translateFromAudio
    by_cases hskip : options.skipAudioRecognition = false ∧ options.manualSongInfo = none
    · simp only [if_pos hskip]
      obtain ⟨e1, e2⟩ := recognizeRetryLoop_congr env.recog now 2 0 ps ps' h
      rcases hA : LyricsTranslatorService.recognizeAudioWithRetry env.recog now ps
        with ⟨oA, psA⟩
      rcases hB : LyricsTranslatorService.recognizeAudioWithRetry env.recog now ps'
        with ⟨oB, psB⟩
      rw [show LyricsTranslatorService.recognizeAudioWithRetry env.recog now ps =
          LyricsTranslatorService.recognizeRetryLoop env.recog now 2 0 ps from rfl] at hA
      rw [show LyricsTranslatorService.recognizeAudioWithRetry env.recog now ps' =
          LyricsTranslatorService.recognizeRetryLoop env.recog now 2 0 ps' from rfl] at hB
      rw [hA, hB] at e1 e2
      dsimp only at e1 e2
      rw [← e1]
      rcases oA with _ | arr
      · exact ⟨rfl, e2⟩
      · exact pipelineAfterRecognition_congr env now options (some arr) psA psB e2
    · simp only [if_neg hskip]
      exact pipelineAfterRecognition_congr env now options none ps ps' h
  · unfold LyricsTranslatorService.translateLyricsOnly
    obtain ⟨f1, f2⟩ := translateRetryLoop_congr oracles now lyricsText targetLanguage
      (sourceLanguage.getD "auto") 2 0 ps ps' h
    rcases hC : LyricsTranslatorService.translateWithRetry oracles now lyricsText
        targetLanguage (sourceLanguage.getD "auto") ps with ⟨oC, psC⟩
    rcases hD : LyricsTranslatorService.translateWithRetry oracles now lyricsText
        targetLanguage (sourceLanguage.getD "auto") ps' with ⟨oD, psD⟩
    rw [show LyricsTranslatorService.translateWithRetry oracles now lyricsText
        targetLanguage (sourceLanguage.getD "auto") ps =
        LyricsTranslatorService.translateRetryLoop oracles now lyricsText
          targetLanguage (sourceLanguage.getD "auto") 2 0 ps from rfl] at hC
    rw [show LyricsTranslatorService.translateWithRetry oracles now lyricsText
        targetLanguage (sourceLanguage.getD "auto") ps' =
        LyricsTranslatorService.translateRetryLoop oracles now lyricsText
          targetLanguage (sourceLanguage.getD "auto") 2 0 ps' from rfl] at hD
    rw [hC, hD] at f1 f2
    dsimp only at f1 f2
    rw [← f1]
    rcases oC with _ | tr
    · exact ⟨rfl, f2⟩
    · exact ⟨rfl, f2⟩

/-- Witness for `c5_amended`: junk error arrays left by an earlier run do
not change the next invocation's outcome. -/
theorem c5_amended_witness :
    (LyricsTranslatorService.translateLyricsOnly c5Env 0
      ⟨emptyRL, [⟨"s", "old", none, none⟩], [⟨"s", "old", none, none⟩],
        [⟨"s", "old", none, none⟩]⟩ "hello" "es" none none).1 =
    (LyricsTranslatorService.translateLyricsOnly c5Env 0 emptyPS
      "hello" "es" none none).1 :=
  (c5_amended cEnvNull c5Env 0 { targetLanguage := "es" } "hello" "es" none none
    ⟨emptyRL, [⟨"s", "old", none, none⟩], [⟨"s", "old", none, none⟩],
      [⟨"s", "old", none, none⟩]⟩ emptyPS rfl).2.1

end Clippy
